import Mathlib

/-!
Verification development for the BC2APM migration pipeline.

The repository moves TIBCO BusinessConnect configuration artifacts into
Anypoint Partner Manager through an extract → transform → review → deploy
workflow.  This file gives a shallow embedding of the pipeline core:

* the JSON-shaped documents handled by `XmlToJsonTransformer`
  (`server/transformers/xmlToJsonTransformer.ts`),
* the in-memory ledger `MemStorage` (`server/storage.ts`),
* the APM loader `ApmLoader` (`server/loaders/apmLoader.ts`, whose full
  source is reproduced in `replit.md`), with network effects modelled by
  an explicit environment (authentication outcome, push oracle) and an
  explicit trace of outbound calls,
* the Express route handlers for transform and migrate
  (`server/routes.ts`): `POST /api/transform/:id`, `POST /api/transform`,
  `POST /api/migrate/:id` and `POST /api/migrate`, which realise the
  `transformOne` / `transformAll` / `migrateOne` / `migrateAll` entry
  points of the specification.

`Promise.all` over per-artifact handlers is embedded as a sequential fold
in list order: each handler's network calls are initiated in map order and
all storage mutations touch pairwise distinct artifacts, so the fold is a
faithful linearization.  Clock reads (`new Date()`) are passed in as
explicit parameters.
-/

namespace BC2APM

/-- JSON values as produced by `xml2js` and stored in the `jsonb` columns.
Objects are ordered key/value lists (JS objects preserve insertion
order). -/
inductive Json where
  | null : Json
  | bool (b : Bool) : Json
  | str (s : String) : Json
  | num (n : Int) : Json
  | arr (xs : List Json) : Json
  | obj (kvs : List (String × Json)) : Json

mutual

/-- Decidable equality on `Json` (the automatic deriving handler does not
support the nested `List` occurrences). -/
def Json.decEq : (a b : Json) → Decidable (a = b)
  | .null, .null => .isTrue rfl
  | .bool a, .bool b =>
    if h : a = b then .isTrue (by rw [h])
    else .isFalse (by intro he; cases he; exact h rfl)
  | .str a, .str b =>
    if h : a = b then .isTrue (by rw [h])
    else .isFalse (by intro he; cases he; exact h rfl)
  | .num a, .num b =>
    if h : a = b then .isTrue (by rw [h])
    else .isFalse (by intro he; cases he; exact h rfl)
  | .arr xs, .arr ys =>
    match Json.decEqList xs ys with
    | .isTrue h => .isTrue (by rw [h])
    | .isFalse h => .isFalse (by intro he; cases he; exact h rfl)
  | .obj xs, .obj ys =>
    match Json.decEqKVList xs ys with
    | .isTrue h => .isTrue (by rw [h])
    | .isFalse h => .isFalse (by intro he; cases he; exact h rfl)
  | .null, .bool _ => .isFalse (fun h => Json.noConfusion h)
  | .null, .str _ => .isFalse (fun h => Json.noConfusion h)
  | .null, .num _ => .isFalse (fun h => Json.noConfusion h)
  | .null, .arr _ => .isFalse (fun h => Json.noConfusion h)
  | .null, .obj _ => .isFalse (fun h => Json.noConfusion h)
  | .bool _, .null => .isFalse (fun h => Json.noConfusion h)
  | .bool _, .str _ => .isFalse (fun h => Json.noConfusion h)
  | .bool _, .num _ => .isFalse (fun h => Json.noConfusion h)
  | .bool _, .arr _ => .isFalse (fun h => Json.noConfusion h)
  | .bool _, .obj _ => .isFalse (fun h => Json.noConfusion h)
  | .str _, .null => .isFalse (fun h => Json.noConfusion h)
  | .str _, .bool _ => .isFalse (fun h => Json.noConfusion h)
  | .str _, .num _ => .isFalse (fun h => Json.noConfusion h)
  | .str _, .arr _ => .isFalse (fun h => Json.noConfusion h)
  | .str _, .obj _ => .isFalse (fun h => Json.noConfusion h)
  | .num _, .null => .isFalse (fun h => Json.noConfusion h)
  | .num _, .bool _ => .isFalse (fun h => Json.noConfusion h)
  | .num _, .str _ => .isFalse (fun h => Json.noConfusion h)
  | .num _, .arr _ => .isFalse (fun h => Json.noConfusion h)
  | .num _, .obj _ => .isFalse (fun h => Json.noConfusion h)
  | .arr _, .null => .isFalse (fun h => Json.noConfusion h)
  | .arr _, .bool _ => .isFalse (fun h => Json.noConfusion h)
  | .arr _, .str _ => .isFalse (fun h => Json.noConfusion h)
  | .arr _, .num _ => .isFalse (fun h => Json.noConfusion h)
  | .arr _, .obj _ => .isFalse (fun h => Json.noConfusion h)
  | .obj _, .null => .isFalse (fun h => Json.noConfusion h)
  | .obj _, .bool _ => .isFalse (fun h => Json.noConfusion h)
  | .obj _, .str _ => .isFalse (fun h => Json.noConfusion h)
  | .obj _, .num _ => .isFalse (fun h => Json.noConfusion h)
  | .obj _, .arr _ => .isFalse (fun h => Json.noConfusion h)

/-- Decidable equality on lists of `Json`. -/
def Json.decEqList : (a b : List Json) → Decidable (a = b)
  | [], [] => .isTrue rfl
  | x :: xs, y :: ys =>
    match Json.decEq x y, Json.decEqList xs ys with
    | .isTrue h1, .isTrue h2 => .isTrue (by rw [h1, h2])
    | .isFalse h1, _ => .isFalse (by intro he; cases he; exact h1 rfl)
    | _, .isFalse h2 => .isFalse (by intro he; cases he; exact h2 rfl)
  | [], _ :: _ => .isFalse (fun h => List.noConfusion h)
  | _ :: _, [] => .isFalse (fun h => List.noConfusion h)

/-- Decidable equality on key/value lists. -/
def Json.decEqKVList : (a b : List (String × Json)) → Decidable (a = b)
  | [], [] => .isTrue rfl
  | (k1, v1) :: xs, (k2, v2) :: ys =>
    if h0 : k1 = k2 then
      match Json.decEq v1 v2, Json.decEqKVList xs ys with
      | .isTrue h1, .isTrue h2 => .isTrue (by rw [h0, h1, h2])
      | .isFalse h1, _ => .isFalse (by intro he; cases he; exact h1 rfl)
      | _, .isFalse h2 => .isFalse (by intro he; cases he; exact h2 rfl)
    else .isFalse (by intro he; cases he; exact h0 rfl)
  | [], _ :: _ => .isFalse (fun h => List.noConfusion h)
  | _ :: _, [] => .isFalse (fun h => List.noConfusion h)

end

instance : DecidableEq Json := Json.decEq

namespace Json

/-- JS member access `j[k]`: `some v` when the key is present, `none` for
`undefined` (absent key or non-object receiver). -/
def member : Json → String → Option Json
  | obj kvs, k => kvs.lookup k
  | _, _ => none

/-- JS truthiness of a defined value (`undefined` is represented by
`Option.none` at call sites). -/
def truthy : Json → Bool
  | null => false
  | bool b => b
  | str s => s ≠ ""
  | num n => n ≠ 0
  | arr _ => true
  | obj _ => true

/-- Truthiness of `j[k]`, as in `if (xmlData.Partner)`. -/
def memberTruthy (j : Json) (k : String) : Bool :=
  match j.member k with
  | some v => truthy v
  | none => false

/-- The optional-chained first element `o?.[0]` of a (possibly undefined)
value: `none` models `undefined`.  The documents handled by the
transformer come from `xml2js`, where every present element key holds a
non-empty array, so `[0]` of a defined non-array value does not occur in
reachable runs and is modelled as `undefined`. -/
def optIdx : Option Json → Option Json
  | none => none
  | some null => none
  | some (arr (x :: _)) => some x
  | some (arr []) => none
  | some _ => none

/-- JS `a || b` where `a` may be `undefined`: returns `a` when truthy,
else the default. -/
def orD : Option Json → Json → Json
  | some v, d => if truthy v then v else d
  | none, d => d

/-- The transformer's helper `getValue(obj, prop)`, literally
`obj && obj[prop] ? obj[prop][0] : null`; `undefined` results of `[0]`
are conflated with `null` (both serialize to an absent/null field). -/
def getValue (j : Json) (p : String) : Json :=
  match j.member p with
  | some v =>
    if truthy v then (match v with | arr (x :: _) => x | _ => null) else null
  | none => null

/-- JS object assignment `result[name] = value`: replaces the value of an
existing key in place, otherwise appends the key. -/
def objSet : List (String × Json) → String → Json → List (String × Json)
  | [], k, v => [(k, v)]
  | (k', v') :: rest, k, v =>
    if k' = k then (k, v) :: rest else (k', v') :: objSet rest k v

/-- JS property-key coercion for the `Property` name values; `xml2js`
produces string names, so only that case occurs in reachable runs. -/
def asKey : Json → String
  | str s => s
  | _ => ""

end Json

/-! ## XmlToJsonTransformer (`server/transformers/xmlToJsonTransformer.ts`)

`transform` is `async` but its body performs no awaits other than the
already-synchronous helpers; the single impurity is `new Date()`, passed
here as the explicit `now` parameter (the ISO timestamp string the call
would have produced).  Failures (`throw`) are modelled by
`Except.error`. -/

open Json in
/-- `determineArtifactType` of the transformer: dispatch is derived from
the structure of the document itself (which root key is present and
truthy), not from the artifact's declared `type` column. -/
def determineArtifactType (doc : Json) : String :=
  if doc.memberTruthy "Partner" then "trading_partner"
  else if doc.memberTruthy "Channel" then "channel"
  else if doc.memberTruthy "Certificate" then "certificate"
  else if doc.memberTruthy "Map" then "map"
  else if doc.memberTruthy "Endpoint" then "endpoint"
  else if doc.memberTruthy "Schema" then "schema"
  else "other"

open Json in
/-- `transformContact(contactData)` where the argument is
`partner.Contact?.[0]` (possibly undefined). -/
def transformContact (c : Option Json) : Json :=
  match c with
  | none => .null
  | some v =>
    if ¬ truthy v then .null
    else .obj [("name", orD (optIdx (v.member "name")) (.str "")),
               ("email", orD (optIdx (v.member "email")) (.str "")),
               ("phone", orD (optIdx (v.member "phone")) (.str ""))]

open Json in
/-- `transformIdentifiers(identifiersData)`; `.map` over the `Identifier`
array (non-array truthy values cannot arise from `xml2js` documents and
are mapped to the empty list). -/
def transformIdentifiers (c : Option Json) : Json :=
  match c with
  | none => .arr []
  | some v =>
    if ¬ truthy v then .arr []
    else
      match v.member "Identifier" with
      | none => .arr []
      | some w =>
        if ¬ truthy w then .arr []
        else
          match w with
          | .arr xs =>
            .arr (xs.map fun idj =>
              .obj [("type", orD (optIdx (idj.member "type")) (.str "custom")),
                    ("value", orD (optIdx (idj.member "value")) (.str "")),
                    ("name", orD (optIdx (idj.member "name")) .null)])
          | _ => .arr []

open Json in
/-- `transformEndpointRefs(endpointsData)`: each entry maps to
`ep.id?.[0] || ep`. -/
def transformEndpointRefs (c : Option Json) : Json :=
  match c with
  | none => .arr []
  | some v =>
    if ¬ truthy v then .arr []
    else
      match v.member "Endpoint" with
      | none => .arr []
      | some w =>
        if ¬ truthy w then .arr []
        else
          match w with
          | .arr xs => .arr (xs.map fun ep => orD (optIdx (ep.member "id")) ep)
          | _ => .arr []

open Json in
/-- `transformProperties(propsData)`: folds the `Property` list into a
plain object, keeping entries whose `name` is truthy and whose `value` is
defined (`value !== undefined`). -/
def transformProperties (c : Option Json) : Json :=
  match c with
  | none => .obj []
  | some v =>
    if ¬ truthy v then .obj []
    else
      match v.member "Property" with
      | none => .obj []
      | some w =>
        if ¬ truthy w then .obj []
        else
          match w with
          | .arr xs =>
            .obj (xs.foldl (fun acc p =>
              match optIdx (p.member "name"), optIdx (p.member "value") with
              | some n, some val => if truthy n then objSet acc (asKey n) val else acc
              | _, _ => acc) [])
          | _ => .obj []

open Json in
/-- `transformSecurity(securityData)`. -/
def transformSecurity (c : Option Json) : Json :=
  match c with
  | none => .null
  | some v =>
    if ¬ truthy v then .null
    else .obj [("type", orD (optIdx (v.member "type")) (.str "")),
               ("certificate", orD (optIdx (v.member "certificate")) .null),
               ("username", orD (optIdx (v.member "username")) .null),
               ("password", orD (optIdx (v.member "password")) .null)]

open Json in
/-- The object literal built by `transformTradingPartner` from the inner
`Partner` element. -/
def partnerRecord (p : Json) (now : String) : Json :=
  .obj [("partner", .obj
    [("id", getValue p "id"),
     ("name", getValue p "name"),
     ("type", .str "trading_partner"),
     ("status", orD (some (getValue p "status")) (.str "active")),
     ("contact", transformContact (optIdx (p.member "Contact"))),
     ("identifiers", transformIdentifiers (optIdx (p.member "Identifiers"))),
     ("endpoints", transformEndpointRefs (optIdx (p.member "Endpoints"))),
     ("created", getValue p "created"),
     ("modified", .str now),
     ("apm_id", .null)])]

open Json in
/-- `transformTradingPartner(xmlData)`. -/
def transformTradingPartner (doc : Json) (now : String) : Except String Json :=
  match doc.member "Partner" with
  | none => .error "Invalid trading partner data"
  | some p =>
    if ¬ truthy p then .error "Invalid trading partner data"
    else .ok (partnerRecord p now)

open Json in
/-- The object literal built by `transformChannel`. -/
def channelRecord (c : Json) (now : String) : Json :=
  .obj [("channel", .obj
    [("id", getValue c "id"),
     ("name", getValue c "name"),
     ("type", getValue c "type"),
     ("protocol", getValue c "protocol"),
     ("direction", getValue c "direction"),
     ("properties", transformProperties (optIdx (c.member "Properties"))),
     ("security", transformSecurity (optIdx (c.member "Security"))),
     ("created", getValue c "created"),
     ("modified", .str now),
     ("apm_id", .null)])]

open Json in
/-- `transformChannel(xmlData)`. -/
def transformChannel (doc : Json) (now : String) : Except String Json :=
  match doc.member "Channel" with
  | none => .error "Invalid channel data"
  | some c =>
    if ¬ truthy c then .error "Invalid channel data"
    else .ok (channelRecord c now)

open Json in
/-- The object literal built by `transformCertificate`. -/
def certificateRecord (c : Json) (now : String) : Json :=
  .obj [("certificate", .obj
    [("id", getValue c "id"),
     ("name", getValue c "name"),
     ("type", orD (some (getValue c "type")) (.str "x509")),
     ("format", orD (some (getValue c "format")) (.str "PEM")),
     ("data", getValue c "data"),
     ("fingerprint", getValue c "fingerprint"),
     ("issuer", getValue c "issuer"),
     ("subject", getValue c "subject"),
     ("validFrom", getValue c "validFrom"),
     ("validTo", getValue c "validTo"),
     ("created", getValue c "created"),
     ("modified", .str now),
     ("apm_id", .null)])]

open Json in
/-- `transformCertificate(xmlData)`. -/
def transformCertificate (doc : Json) (now : String) : Except String Json :=
  match doc.member "Certificate" with
  | none => .error "Invalid certificate data"
  | some c =>
    if ¬ truthy c then .error "Invalid certificate data"
    else .ok (certificateRecord c now)

open Json in
/-- The object literal built by `transformMap`. -/
def mapRecord (m : Json) (now : String) : Json :=
  .obj [("map", .obj
    [("id", getValue m "id"),
     ("name", getValue m "name"),
     ("type", orD (some (getValue m "type")) (.str "EDI")),
     ("sourceFormat", getValue m "sourceFormat"),
     ("targetFormat", getValue m "targetFormat"),
     ("transformation", getValue m "transformation"),
     ("created", getValue m "created"),
     ("modified", .str now),
     ("apm_id", .null)])]

open Json in
/-- `transformMap(xmlData)`. -/
def transformMap (doc : Json) (now : String) : Except String Json :=
  match doc.member "Map" with
  | none => .error "Invalid map data"
  | some m =>
    if ¬ truthy m then .error "Invalid map data"
    else .ok (mapRecord m now)

open Json in
/-- The object literal built by `transformEndpoint`. -/
def endpointRecord (e : Json) (now : String) : Json :=
  .obj [("endpoint", .obj
    [("id", getValue e "id"),
     ("name", getValue e "name"),
     ("type", getValue e "type"),
     ("url", getValue e "url"),
     ("properties", transformProperties (optIdx (e.member "Properties"))),
     ("channelId", getValue e "channelId"),
     ("partnerId", getValue e "partnerId"),
     ("created", getValue e "created"),
     ("modified", .str now),
     ("apm_id", .null)])]

open Json in
/-- `transformEndpoint(xmlData)`. -/
def transformEndpoint (doc : Json) (now : String) : Except String Json :=
  match doc.member "Endpoint" with
  | none => .error "Invalid endpoint data"
  | some e =>
    if ¬ truthy e then .error "Invalid endpoint data"
    else .ok (endpointRecord e now)

open Json in
/-- The object literal built by `transformSchema`. -/
def schemaRecord (sc : Json) (now : String) : Json :=
  .obj [("schema", .obj
    [("id", getValue sc "id"),
     ("name", getValue sc "name"),
     ("type", getValue sc "type"),
     ("standard", getValue sc "standard"),
     ("version", getValue sc "version"),
     ("format", getValue sc "format"),
     ("content", getValue sc "content"),
     ("created", getValue sc "created"),
     ("modified", .str now),
     ("apm_id", .null)])]

open Json in
/-- `transformSchema(xmlData)`. -/
def transformSchema (doc : Json) (now : String) : Except String Json :=
  match doc.member "Schema" with
  | none => .error "Invalid schema data"
  | some sc =>
    if ¬ truthy sc then .error "Invalid schema data"
    else .ok (schemaRecord sc now)

open Json in
/-- The object literal built by `transformGeneric` from the first root
key and its element. -/
def genericRecord (root : String) (entity : Json) (now : String) : Json :=
  .obj [("genericArtifact", .obj
    [("type", .str "other"),
     ("originalType", .str root),
     ("id", orD (optIdx (entity.member "id")) (.str "")),
     ("name", orD (optIdx (entity.member "name")) (.str "")),
     ("data", entity),
     ("created", orD (optIdx (entity.member "created")) (.str now)),
     ("modified", .str now),
     ("apm_id", .null)])]

open Json in
/-- `transformGeneric(xmlData)`: wraps the whole document under the first
root key; `Object.keys` of a non-empty object yields its first key. -/
def transformGeneric (doc : Json) (now : String) : Except String Json :=
  match doc with
  | .obj ((k, v) :: _) => .ok (genericRecord k v now)
  | _ => .error "Invalid data structure"

/-- The body of `XmlToJsonTransformer.transform`: the `switch` over
`determineArtifactType`. -/
def transformBody (doc : Json) (now : String) : Except String Json :=
  let ty := determineArtifactType doc
  if ty = "trading_partner" then transformTradingPartner doc now
  else if ty = "channel" then transformChannel doc now
  else if ty = "certificate" then transformCertificate doc now
  else if ty = "map" then transformMap doc now
  else if ty = "endpoint" then transformEndpoint doc now
  else if ty = "schema" then transformSchema doc now
  else transformGeneric doc now

/-- `XmlToJsonTransformer.transform(originalData)`: the outer try/catch
rethrows any failure with the `Transformation failed: ` prefix. -/
def transform (doc : Json) (now : String) : Except String Json :=
  match transformBody doc now with
  | .ok v => .ok v
  | .error e => .error ("Transformation failed: " ++ e)

/-! ## Data model (`shared/schema.ts`) and MemStorage (`server/storage.ts`)

Timestamps are abstract `Nat` clock readings.  The JS `Map`s preserve
insertion order and hold one entry per key; they are embedded as lists in
insertion order.  `apmId` stores whatever JS value `apmResponse.id`
evaluated to (`none` models `undefined`/never set). -/

/-- A row of the `artifacts` table. -/
structure Artifact where
  id : Nat
  name : String
  originalId : String
  type : String
  status : String
  originalData : Json
  transformedData : Option Json
  apmId : Option Json
  lastModified : Nat
  createdAt : Nat
  extractionId : Nat
  deriving DecidableEq

/-- A `Partial<InsertArtifact>` update: `none` means the key is absent
from the update object (`id` and `createdAt` are omitted from
`insertArtifactSchema` and can never be updated). -/
structure ArtifactUpdate where
  name : Option String := none
  originalId : Option String := none
  type : Option String := none
  status : Option String := none
  originalData : Option Json := none
  transformedData : Option (Option Json) := none
  apmId : Option (Option Json) := none
  lastModified : Option Nat := none
  extractionId : Option Nat := none
  deriving DecidableEq

/-- The object spread `{ ...artifact, ...updates, lastModified: new Date() }`
of `MemStorage.updateArtifact`: update keys override the artifact's
fields, and `lastModified` is unconditionally overwritten with the
current time. -/
def applyUpdate (a : Artifact) (u : ArtifactUpdate) (now : Nat) : Artifact :=
  { id := a.id
    name := u.name.getD a.name
    originalId := u.originalId.getD a.originalId
    type := u.type.getD a.type
    status := u.status.getD a.status
    originalData := u.originalData.getD a.originalData
    transformedData := u.transformedData.getD a.transformedData
    apmId := u.apmId.getD a.apmId
    lastModified := now
    createdAt := a.createdAt
    extractionId := u.extractionId.getD a.extractionId }

/-- `MemStorage.updateArtifact` on the artifact list: `Map.get` is the
(unique) entry with the key, `Map.set` replaces it in place. -/
def updateArtifactL (arts : List Artifact) (id : Nat) (u : ArtifactUpdate)
    (now : Nat) : Option Artifact × List Artifact :=
  match arts.find? (fun a => a.id == id) with
  | none => (none, arts)
  | some a =>
    let a' := applyUpdate a u now
    (some a', arts.map fun x => if x.id == id then a' else x)

/-- A row of the `migrations` table (a `MigrationAttempt`). -/
structure Migration where
  id : Nat
  artifactId : Nat
  timestamp : Nat
  status : String
  apmResponse : Option Json
  errorMessage : Option String
  deriving DecidableEq

/-- An `InsertMigration` (the id is assigned by the store). -/
structure InsertMigration where
  artifactId : Nat
  timestamp : Nat
  status : String
  apmResponse : Option Json := none
  errorMessage : Option String := none
  deriving DecidableEq

/-- The slice of `MemStorage` the transform and migrate routes touch. -/
structure MemStorage where
  artifacts : List Artifact
  migrations : List Migration
  migrationId : Nat
  deriving DecidableEq

namespace MemStorage

/-- `MemStorage.updateArtifact`. -/
def updateArtifact (s : MemStorage) (id : Nat) (u : ArtifactUpdate)
    (now : Nat) : Option Artifact × MemStorage :=
  ((updateArtifactL s.artifacts id u now).1,
   { s with artifacts := (updateArtifactL s.artifacts id u now).2 })

/-- `MemStorage.createMigration`: assigns the next id and appends. -/
def createMigration (s : MemStorage) (m : InsertMigration) :
    Migration × MemStorage :=
  let mig : Migration :=
    { id := s.migrationId, artifactId := m.artifactId,
      timestamp := m.timestamp, status := m.status,
      apmResponse := m.apmResponse, errorMessage := m.errorMessage }
  (mig, { s with migrations := s.migrations ++ [mig],
                 migrationId := s.migrationId + 1 })

/-- `MemStorage.getArtifactsByStatus`. -/
def getArtifactsByStatus (s : MemStorage) (st : String) : List Artifact :=
  s.artifacts.filter (fun a => a.status == st)

/-- `MemStorage.getArtifact`. -/
def getArtifact (s : MemStorage) (id : Nat) : Option Artifact :=
  s.artifacts.find? (fun a => a.id == id)

end MemStorage

/-! ## ApmLoader (`server/loaders/apmLoader.ts`, source in `replit.md`)

`load` calls `getApmToken` (one authentication fetch) on every
invocation, then dispatches on the artifact type string to a `createX`
method that validates the payload wrapper key and posts the mapped
payload to the type-specific APM endpoint.  The network is modelled by
`ApmEnv`: the outcome of an authentication call and the outcome of each
creation call, fixed for the duration of one batch.  `NetTrace` records
the outbound calls actually issued. -/

/-- Outcome of the APM OAuth token request. -/
inductive AuthOutcome where
  | ok (token : String) : AuthOutcome
  | fail (msg : String) : AuthOutcome
  deriving DecidableEq

/-- The network environment of a batch: deterministic responses for
authentication and for each creation call (keyed by artifact type and
canonical payload). -/
structure ApmEnv where
  auth : AuthOutcome
  push : String → Json → Except String Json

/-- Trace of outbound APM calls: number of authentication requests and
the sequence of creation-endpoint posts (artifact type with the canonical
record being loaded), in issue order. -/
structure NetTrace where
  authCalls : Nat := 0
  pushes : List (String × Json) := []
  deriving DecidableEq

/-- The wrapper key each `createX` method validates before posting
(`if (!partnerData.partner) throw ...`); `none` for the `default` branch
of `load`, which throws `Unsupported artifact type`. -/
def typeKey : String → Option String
  | "trading_partner" => some "partner"
  | "channel" => some "channel"
  | "certificate" => some "certificate"
  | "map" => some "map"
  | "endpoint" => some "endpoint"
  | "schema" => some "schema"
  | _ => none

/-- `ApmLoader.load(transformedData, artifactType, credentials)`:
authenticate (always one token fetch), dispatch by type, validate the
wrapper key, post.  Every failure is rethrown with the
`APM loading failed: ` prefix by the outer catch. -/
def load (env : ApmEnv) (tr : NetTrace) (data : Json) (ty : String) :
    NetTrace × Except String Json :=
  let tr1 : NetTrace := { tr with authCalls := tr.authCalls + 1 }
  match env.auth with
  | .fail msg =>
    (tr1, .error ("APM loading failed: Failed to authenticate with APM: " ++ msg))
  | .ok _ =>
    match typeKey ty with
    | none => (tr1, .error ("APM loading failed: Unsupported artifact type: " ++ ty))
    | some k =>
      if data.memberTruthy k then
        let tr2 : NetTrace := { tr1 with pushes := tr1.pushes ++ [(ty, data)] }
        match env.push ty data with
        | .ok resp => (tr2, .ok resp)
        | .error e => (tr2, .error ("APM loading failed: " ++ e))
      else
        (tr1, .error ("APM loading failed: Invalid " ++ k ++ " data format"))

/-! ## Route handlers (`server/routes.ts`) -/

/-- The truthiness test `!artifact.transformedData` used by both migrate
routes: the canonical record passed to the loader, or `none` when the
column is unset or holds a falsy value. -/
def Artifact.dataForLoad (a : Artifact) : Option Json :=
  match a.transformedData with
  | some d => if Json.truthy d then some d else none
  | none => none

/-- Response of `POST /api/transform/:id`. -/
inductive TransformOneOutcome where
  | notFound : TransformOneOutcome
  | ok (a : Artifact) : TransformOneOutcome
  | err (msg : String) : TransformOneOutcome
  deriving DecidableEq

/-- `POST /api/transform/:id` (transformOne): transform `originalData`
and persist `{ transformedData, status: "pending" }`; any failure is
answered with a 500 response and performs no store mutation. -/
def transformOne (s : MemStorage) (id : Nat) (now : String) (t : Nat) :
    TransformOneOutcome × MemStorage :=
  match s.getArtifact id with
  | none => (.notFound, s)
  | some a =>
    match transform a.originalData now with
    | .error e => (.err e, s)
    | .ok d =>
      match (s.updateArtifact id
        { transformedData := some (some d), status := some "pending" } t).1 with
      | some a' => (.ok a', (s.updateArtifact id
          { transformedData := some (some d), status := some "pending" } t).2)
      | none => (.notFound, (s.updateArtifact id
          { transformedData := some (some d), status := some "pending" } t).2)

/-- The ledger update `POST /api/transform` applies to one `new`
artifact: on success `{ transformedData, status: "pending" }`, on
transformation failure `{ status: "error" }` (no message column
exists). -/
def transformUpd (now : String) (a : Artifact) : ArtifactUpdate :=
  match transform a.originalData now with
  | .ok d => { transformedData := some (some d), status := some "pending" }
  | .error _ => { status := some "error" }

/-- One iteration of the `POST /api/transform` batch. -/
def transformStep (now : String) (t : Nat) (s : MemStorage) (a : Artifact) :
    MemStorage :=
  match transform a.originalData now with
  | .ok d =>
    (s.updateArtifact a.id
      { transformedData := some (some d), status := some "pending" } t).2
  | .error _ => (s.updateArtifact a.id { status := some "error" } t).2

/-- `POST /api/transform` (transformAll): transforms every artifact with
status `new`, each in its own try/catch; returns the number of processed
artifacts. -/
def transformAll (s : MemStorage) (now : String) (t : Nat) :
    Nat × MemStorage :=
  let news := s.getArtifactsByStatus "new"
  (news.length, news.foldl (transformStep now t) s)

/-- Response of `POST /api/migrate/:id`. -/
inductive MigrateOneOutcome where
  | notFound : MigrateOneOutcome
  | notTransformed : MigrateOneOutcome
  | migrated (resp : Json) : MigrateOneOutcome
  | failed (msg : String) : MigrateOneOutcome
  deriving DecidableEq

/-- `POST /api/migrate/:id` (migrateOne): reject with 400 when
`transformedData` is falsy (no network call, no mutation); otherwise load
to APM regardless of the artifact's status, then record the attempt and
update the artifact. -/
def migrateOne (s : MemStorage) (id : Nat) (env : ApmEnv) (t : Nat) :
    MigrateOneOutcome × MemStorage × NetTrace :=
  match s.getArtifact id with
  | none => (.notFound, s, {})
  | some a =>
    match a.dataForLoad with
    | none => (.notTransformed, s, {})
    | some d =>
      let (tr, res) := load env {} d a.type
      match res with
      | .ok resp =>
        let (_, s1) := s.createMigration
          { artifactId := a.id, timestamp := t, status := "success",
            apmResponse := some resp }
        let (_, s2) := s1.updateArtifact id
          { status := some "migrated", apmId := some (resp.member "id") } t
        (.migrated resp, s2, tr)
      | .error e =>
        let (_, s1) := s.createMigration
          { artifactId := a.id, timestamp := t, status := "failed",
            errorMessage := some e }
        let (_, s2) := s1.updateArtifact id { status := some "error" } t
        (.failed e, s2, tr)

/-- Per-artifact entry of the `POST /api/migrate` response. -/
structure MigResult where
  artifactId : Nat
  success : Bool
  error : Option String := none
  deriving DecidableEq

/-- One iteration of the `POST /api/migrate` batch: throw (and catch)
`Missing transformed data` when `transformedData` is falsy, otherwise
load to APM; in every branch exactly one migration record is appended
and the artifact is updated. -/
def migrateStep (env : ApmEnv) (t : Nat)
    (st : MemStorage × NetTrace × List MigResult) (a : Artifact) :
    MemStorage × NetTrace × List MigResult :=
  let (s, tr, rs) := st
  match a.dataForLoad with
  | none =>
    let (_, s1) := s.createMigration
      { artifactId := a.id, timestamp := t, status := "failed",
        errorMessage := some "Missing transformed data" }
    let (_, s2) := s1.updateArtifact a.id { status := some "error" } t
    (s2, tr, rs ++ [{ artifactId := a.id, success := false,
                      error := some "Missing transformed data" }])
  | some d =>
    let (tr', res) := load env tr d a.type
    match res with
    | .ok resp =>
      let (_, s1) := s.createMigration
        { artifactId := a.id, timestamp := t, status := "success",
          apmResponse := some resp }
      let (_, s2) := s1.updateArtifact a.id
        { status := some "migrated", apmId := some (resp.member "id") } t
      (s2, tr', rs ++ [{ artifactId := a.id, success := true }])
    | .error e =>
      let (_, s1) := s.createMigration
        { artifactId := a.id, timestamp := t, status := "failed",
          errorMessage := some e }
      let (_, s2) := s1.updateArtifact a.id { status := some "error" } t
      (s2, tr', rs ++ [{ artifactId := a.id, success := false,
                         error := some e }])

/-- `POST /api/migrate` (migrateAll): fetches all `pending` artifacts and
processes each independently, in stored order, with no dependency graph,
no ordering computation and no cycle detection. -/
def migrateAll (s : MemStorage) (env : ApmEnv) (t : Nat) :
    MemStorage × NetTrace × List MigResult :=
  (s.getArtifactsByStatus "pending").foldl (migrateStep env t) (s, {}, [])

/-! ## Per-artifact outcome functions and batch characterizations

Each `migrateStep` iteration's effect is determined by the snapshot
artifact and the environment alone; the following functions compute that
effect, and the lemmas below characterize the whole batch fold. -/

instance {ε α : Type} [DecidableEq ε] [DecidableEq α] :
    DecidableEq (Except ε α)
  | .ok a, .ok b =>
    if h : a = b then .isTrue (by rw [h])
    else .isFalse (by intro he; cases he; exact h rfl)
  | .error a, .error b =>
    if h : a = b then .isTrue (by rw [h])
    else .isFalse (by intro he; cases he; exact h rfl)
  | .ok _, .error _ => .isFalse (fun h => Except.noConfusion h)
  | .error _, .ok _ => .isFalse (fun h => Except.noConfusion h)

/-- The result a single `ApmLoader.load` call returns (trace aside). -/
def loadOutcome (env : ApmEnv) (d : Json) (ty : String) : Except String Json :=
  (load env {} d ty).2

/-- The creation-endpoint posts a single `load` call issues (none on
authentication failure, unsupported type or invalid payload wrapper). -/
def loadPushes (env : ApmEnv) (d : Json) (ty : String) : List (String × Json) :=
  (load env {} d ty).1.pushes

/-- Number of authentication calls one batch iteration issues for the
artifact: one whenever the loader is invoked at all. -/
def stepAuth (a : Artifact) : Nat :=
  match a.dataForLoad with
  | none => 0
  | some _ => 1

/-- The creation-endpoint posts one batch iteration issues for the
artifact. -/
def stepPushes (env : ApmEnv) (a : Artifact) : List (String × Json) :=
  match a.dataForLoad with
  | none => []
  | some d => loadPushes env d a.type

/-- The ledger update one batch iteration applies to its artifact. -/
def stepUpdate (env : ApmEnv) (a : Artifact) : ArtifactUpdate :=
  match a.dataForLoad with
  | none => { status := some "error" }
  | some d =>
    match loadOutcome env d a.type with
    | .ok resp => { status := some "migrated", apmId := some (resp.member "id") }
    | .error _ => { status := some "error" }

/-- The per-artifact entry one batch iteration appends to the response. -/
def stepResult (env : ApmEnv) (a : Artifact) : MigResult :=
  match a.dataForLoad with
  | none => { artifactId := a.id, success := false,
              error := some "Missing transformed data" }
  | some d =>
    match loadOutcome env d a.type with
    | .ok _ => { artifactId := a.id, success := true }
    | .error e => { artifactId := a.id, success := false, error := some e }

/-- The migration record one batch iteration appends, given the record
id the store will assign. -/
def stepMig (env : ApmEnv) (t : Nat) (n : Nat) (a : Artifact) : Migration :=
  match a.dataForLoad with
  | none =>
    { id := n, artifactId := a.id, timestamp := t, status := "failed",
      apmResponse := none, errorMessage := some "Missing transformed data" }
  | some d =>
    match loadOutcome env d a.type with
    | .ok resp =>
      { id := n, artifactId := a.id, timestamp := t, status := "success",
        apmResponse := some resp, errorMessage := none }
    | .error e =>
      { id := n, artifactId := a.id, timestamp := t, status := "failed",
        apmResponse := none, errorMessage := some e }

/-- The migration records a batch over the given artifacts appends, with
ids assigned consecutively from `n`. -/
def mkPendingMigs (env : ApmEnv) (t : Nat) : Nat → List Artifact → List Migration
  | _, [] => []
  | n, a :: L => stepMig env t n a :: mkPendingMigs env t (n + 1) L

/-! ## Auxiliary definitions for the statements below -/

/-- Drops exactly the clock-derived fields from a canonical record: the
`modified` field of every mapping, plus the `created` field of the
generic mapping only (its value falls back to the clock when the source
document carries none).  The `created` field of the six typed mappings
is document-derived and is kept. -/
def stripClockJ : Json → Json
  | .obj [(k, .obj fields)] =>
    .obj [(k, .obj (fields.filter
      (fun kv => !(kv.1 == "modified"
                   || (k == "genericArtifact" && kv.1 == "created")))))]
  | j => j

/-- Clock-independent projection of a transformation outcome. -/
def stripClock (r : Except String Json) : Except String Json :=
  r.map stripClockJ

/-- Overwrites the declared `type` column of the artifact with the given
id (an operator `PATCH /api/artifacts/:id` naming only `type`). -/
def retypeL (arts : List Artifact) (i : Nat) (ty : String) : List Artifact :=
  arts.map (fun x => if x.id == i then { x with type := ty } else x)

/-- `retypeL` on the whole store. -/
def retype (s : MemStorage) (i : Nat) (ty : String) : MemStorage :=
  { s with artifacts := retypeL s.artifacts i ty }

/-! ## Concrete fixtures

A three-artifact batch: a trading partner whose canonical record
references endpoint `ep-2`, an endpoint whose canonical record
references partner `p-1` (so artifacts 1 and 2 form a reference cycle),
and an unrelated certificate. -/

/-- Canonical record of the partner: its `endpoints` list references
`ep-2`, the `originalId` of `endpointArtifact`. -/
def partnerData : Json :=
  .obj [("partner", .obj [("id", .str "p-1"),
                          ("endpoints", .arr [.str "ep-2"])])]

/-- Canonical record of the endpoint: its `partnerId` references `p-1`,
the `originalId` of `partnerArtifact`, closing the cycle. -/
def endpointData : Json :=
  .obj [("endpoint", .obj [("id", .str "ep-2"),
                           ("partnerId", .str "p-1")])]

/-- Canonical record of the unrelated certificate. -/
def certData : Json :=
  .obj [("certificate", .obj [("id", .str "c-3")])]

/-- Pending trading partner (depends on the endpoint). -/
def partnerArtifact : Artifact :=
  { id := 1, name := "Acme", originalId := "p-1",
    type := "trading_partner", status := "pending",
    originalData := .null, transformedData := some partnerData,
    apmId := none, lastModified := 0, createdAt := 0, extractionId := 1 }

/-- Pending endpoint (referenced by the partner; references it back). -/
def endpointArtifact : Artifact :=
  { id := 2, name := "AS2", originalId := "ep-2",
    type := "endpoint", status := "pending",
    originalData := .null, transformedData := some endpointData,
    apmId := none, lastModified := 0, createdAt := 0, extractionId := 1 }

/-- Pending certificate, unrelated to the other two. -/
def certArtifact : Artifact :=
  { id := 3, name := "cert", originalId := "c-3",
    type := "certificate", status := "pending",
    originalData := .null, transformedData := some certData,
    apmId := none, lastModified := 0, createdAt := 0, extractionId := 1 }

/-- The batch ledger holding the three pending artifacts, in creation
order. -/
def batchStore : MemStorage :=
  { artifacts := [partnerArtifact, endpointArtifact, certArtifact],
    migrations := [], migrationId := 1 }

/-- Environment in which authentication and every push succeed. -/
def okEnv : ApmEnv :=
  { auth := .ok "tok", push := fun _ _ => .ok (.obj [("id", .str "apm-9")]) }

/-- Environment in which the credential exchange fails. -/
def authFailEnv : ApmEnv :=
  { auth := .fail "401 Unauthorized", push := fun _ _ => .ok .null }

/-- An `xml2js`-shaped source document whose root element is `Partner`. -/
def partnerDoc : Json :=
  .obj [("Partner", .obj [("id", .arr [.str "p-1"]),
                          ("name", .arr [.str "Acme"])])]

/-- Artifact with status `new` that nevertheless carries transformed
data (reachable, e.g. through an operator `PATCH` of the status). -/
def newWithDataArtifact : Artifact :=
  { id := 1, name := "Acme", originalId := "p-1",
    type := "trading_partner", status := "new",
    originalData := partnerDoc, transformedData := some partnerData,
    apmId := none, lastModified := 0, createdAt := 0, extractionId := 1 }

/-- Ledger holding only `newWithDataArtifact`. -/
def newWithDataStore : MemStorage :=
  { artifacts := [newWithDataArtifact], migrations := [], migrationId := 1 }

/-- Artifact with status `new` and no transformed data. -/
def datalessArtifact : Artifact :=
  { id := 1, name := "Acme", originalId := "p-1",
    type := "trading_partner", status := "new",
    originalData := partnerDoc, transformedData := none,
    apmId := none, lastModified := 0, createdAt := 0, extractionId := 1 }

/-- Ledger holding only `datalessArtifact`. -/
def newDatalessStore : MemStorage :=
  { artifacts := [datalessArtifact], migrations := [], migrationId := 1 }

/-- Artifact whose source document (`{}`) makes the transformer throw
`Invalid data structure`. -/
def badArtifact : Artifact :=
  { id := 1, name := "bad", originalId := "x-1", type := "other",
    status := "new", originalData := .obj [], transformedData := none,
    apmId := none, lastModified := 0, createdAt := 0, extractionId := 1 }

/-- Ledger holding only `badArtifact`. -/
def badDocStore : MemStorage :=
  { artifacts := [badArtifact], migrations := [], migrationId := 1 }

/-- Artifact whose declared `type` column says `channel` while its
source document's root element is `Partner`. -/
def mistypedArtifact : Artifact :=
  { id := 1, name := "Acme", originalId := "p-1",
    type := "channel", status := "new",
    originalData := partnerDoc, transformedData := none,
    apmId := none, lastModified := 0, createdAt := 0, extractionId := 1 }

/-- Ledger holding only `mistypedArtifact`. -/
def mistypedStore : MemStorage :=
  { artifacts := [mistypedArtifact], migrations := [], migrationId := 1 }

/-- Canonical record of an endpoint that references nothing: its only
field is its own id, so a batch of `partnerArtifact` (which references
`ep-2`) together with this endpoint has an acyclic reference graph. -/
def plainEndpointData : Json :=
  .obj [("endpoint", .obj [("id", .str "ep-2")])]

/-- Pending endpoint with no outgoing references. -/
def plainEndpointArtifact : Artifact :=
  { id := 2, name := "AS2", originalId := "ep-2",
    type := "endpoint", status := "pending",
    originalData := .null, transformedData := some plainEndpointData,
    apmId := none, lastModified := 0, createdAt := 0, extractionId := 1 }

/-- An acyclic two-artifact batch: the partner (stored first) references
the endpoint (stored second); the endpoint references nothing. -/
def acyclicStore : MemStorage :=
  { artifacts := [partnerArtifact, plainEndpointArtifact],
    migrations := [], migrationId := 1 }

/-- Artifact with status `pending` but no transformed data (reachable,
e.g. through an operator `PATCH` of the status without a prior
transform). -/
def pendingDatalessArtifact : Artifact :=
  { id := 1, name := "Acme", originalId := "p-1",
    type := "trading_partner", status := "pending",
    originalData := partnerDoc, transformedData := none,
    apmId := none, lastModified := 0, createdAt := 0, extractionId := 1 }

/-- Ledger holding only `pendingDatalessArtifact`. -/
def pendingDatalessStore : MemStorage :=
  { artifacts := [pendingDatalessArtifact], migrations := [],
    migrationId := 1 }

/-- An update naming only the `status` field. -/
def pendUpd : ArtifactUpdate := { status := some "pending" }

/-! ## General lemmas about single calls and batches -/

/-- A `load` call appends its authentication call and pushes to the
incoming trace and its result does not depend on that trace. -/
theorem load_eq (env : ApmEnv) (tr : NetTrace) (d : Json) (ty : String) :
    load env tr d ty =
      ({ authCalls := tr.authCalls + 1, pushes := tr.pushes ++ loadPushes env d ty },
       loadOutcome env d ty) := by
  cases ha : env.auth with
  | fail m => simp [load, loadPushes, loadOutcome, ha]
  | ok tok =>
    cases hk : typeKey ty with
    | none => simp [load, loadPushes, loadOutcome, ha, hk]
    | some k =>
      by_cases hm : d.memberTruthy k
      · cases hp : env.push ty d <;>
          simp [load, loadPushes, loadOutcome, ha, hk, hm, hp]
      · simp [load, loadPushes, loadOutcome, ha, hk, hm]

/-- One batch-migration iteration in closed form: the ledger update to
the artifact, one appended migration record, the appended network calls
and the appended response entry. -/
theorem migrateStep_eq (env : ApmEnv) (t : Nat) (s : MemStorage)
    (tr : NetTrace) (rs : List MigResult) (a : Artifact) :
    migrateStep env t (s, tr, rs) a =
      ({ artifacts := (updateArtifactL s.artifacts a.id (stepUpdate env a) t).2,
         migrations := s.migrations ++ [stepMig env t s.migrationId a],
         migrationId := s.migrationId + 1 },
       { authCalls := tr.authCalls + stepAuth a,
         pushes := tr.pushes ++ stepPushes env a },
       rs ++ [stepResult env a]) := by
  cases hd : a.dataForLoad with
  | none =>
    simp [migrateStep, hd, stepUpdate, stepResult, stepMig, stepAuth,
      stepPushes, MemStorage.createMigration, MemStorage.updateArtifact]
  | some d =>
    cases ho : loadOutcome env d a.type with
    | ok resp =>
      simp [migrateStep, hd, load_eq, ho, stepUpdate, stepResult, stepMig,
        stepAuth, stepPushes, MemStorage.createMigration,
        MemStorage.updateArtifact]
    | error e =>
      simp [migrateStep, hd, load_eq, ho, stepUpdate, stepResult, stepMig,
        stepAuth, stepPushes, MemStorage.createMigration,
        MemStorage.updateArtifact]

/-- Closed form of the batch-migration fold over any artifact list. -/
theorem migrateFold_eq (env : ApmEnv) (t : Nat) :
    ∀ (L : List Artifact) (s : MemStorage) (tr : NetTrace)
      (rs : List MigResult),
    L.foldl (migrateStep env t) (s, tr, rs) =
      ({ artifacts := L.foldl
           (fun arts a => (updateArtifactL arts a.id (stepUpdate env a) t).2)
           s.artifacts,
         migrations := s.migrations ++ mkPendingMigs env t s.migrationId L,
         migrationId := s.migrationId + L.length },
       { authCalls := tr.authCalls + (L.map stepAuth).sum,
         pushes := tr.pushes ++ L.flatMap (stepPushes env) },
       rs ++ L.map (stepResult env))
  | [], s, tr, rs => by simp [mkPendingMigs]
  | a :: L, s, tr, rs => by
    rw [List.foldl_cons, migrateStep_eq, migrateFold_eq env t L]
    simp [mkPendingMigs, List.flatMap_cons]
    omega

/-- `applyUpdate` never changes the primary key. -/
theorem applyUpdate_id (a : Artifact) (u : ArtifactUpdate) (t : Nat) :
    (applyUpdate a u t).id = a.id := rfl

/-- `updateArtifactL` preserves the list of ids (in order). -/
theorem updateArtifactL_ids (arts : List Artifact) (id : Nat)
    (u : ArtifactUpdate) (t : Nat) :
    ((updateArtifactL arts id u t).2).map (fun a => a.id)
      = arts.map (fun a => a.id) := by
  cases hf : arts.find? (fun a => a.id == id) with
  | none => simp [updateArtifactL, hf]
  | some a =>
    have ha : a.id = id := by
      have := List.find?_some hf
      exact Nat.eq_of_beq_eq_true (by simpa using this)
    simp only [updateArtifactL, hf, List.map_map]
    refine List.map_congr_left fun x _ => ?_
    by_cases hx : x.id = id
    · simp [Function.comp, hx, applyUpdate_id, ha]
    · simp [Function.comp, hx]

/-- With pairwise distinct ids, looking a member's id up finds that
member itself. -/
theorem find?_eq_self_of_nodup :
    ∀ (arts : List Artifact) (a : Artifact), a ∈ arts →
    ((arts.map (fun x => x.id)).Nodup) →
    arts.find? (fun x => x.id == a.id) = some a
  | b :: tl, a, ha, hn => by
    by_cases hb : b.id = a.id
    · have hab : a = b := by
        rcases List.mem_cons.mp ha with h | h
        · exact h
        · have hmem : a.id ∈ tl.map (fun x => x.id) :=
            List.mem_map_of_mem (fun x => x.id) h
          have : b.id ∈ tl.map (fun x => x.id) := by rw [hb]; exact hmem
          exact absurd this (List.nodup_cons.mp hn).1
      simp [List.find?_cons, hb, hab]
    · have ha' : a ∈ tl := by
        rcases List.mem_cons.mp ha with h | h
        · exact absurd (congrArg (fun x => x.id) h.symm) hb
        · exact h
      have := find?_eq_self_of_nodup tl a ha' (List.nodup_cons.mp hn).2
      simp [List.find?_cons, hb, this]

/-- Updating a different id leaves a member in place. -/
theorem mem_updateArtifactL_of_ne (arts : List Artifact) (id : Nat)
    (u : ArtifactUpdate) (t : Nat) (b : Artifact) (hb : b ∈ arts)
    (hne : b.id ≠ id) : b ∈ (updateArtifactL arts id u t).2 := by
  cases hf : arts.find? (fun a => a.id == id) with
  | none => simpa [updateArtifactL, hf] using hb
  | some a =>
    have : (fun x => if x.id == id then applyUpdate a u t else x) b = b := by
      simp [hne]
    simp only [updateArtifactL, hf]
    exact this ▸ List.mem_map_of_mem _ hb

/-- Closed form of a fold of per-artifact updates keyed by their own
ids: with pairwise distinct ids each listed artifact is updated exactly
once, from its snapshot value, and everything else is untouched. -/
theorem foldl_update_char (g : Artifact → ArtifactUpdate) (t : Nat) :
    ∀ (L arts : List Artifact),
    ((arts.map (fun a => a.id)).Nodup) →
    (∀ a ∈ L, a ∈ arts) →
    ((L.map (fun a => a.id)).Nodup) →
    L.foldl (fun acc a => (updateArtifactL acc a.id (g a) t).2) arts
      = arts.map (fun x =>
          if x.id ∈ L.map (fun a => a.id) then applyUpdate x (g x) t else x)
  | [], arts, _, _, _ => by simp
  | a :: L, arts, h1, h2, h3 => by
    have haarts : a ∈ arts := h2 a (List.mem_cons_self a L)
    have hfind : arts.find? (fun x => x.id == a.id) = some a :=
      find?_eq_self_of_nodup arts a haarts h1
    have hanotL : a.id ∉ L.map (fun x => x.id) := (List.nodup_cons.mp h3).1
    have harts' : (updateArtifactL arts a.id (g a) t).2
        = arts.map (fun x => if x.id == a.id then applyUpdate a (g a) t else x) := by
      simp [updateArtifactL, hfind]
    have h1' : (((updateArtifactL arts a.id (g a) t).2).map
        (fun x => x.id)).Nodup := by
      rw [updateArtifactL_ids]; exact h1
    have h2' : ∀ b ∈ L, b ∈ (updateArtifactL arts a.id (g a) t).2 := by
      intro b hb
      have hbid : b.id ≠ a.id := fun he =>
        hanotL (he ▸ List.mem_map_of_mem (fun x => x.id) hb)
      exact mem_updateArtifactL_of_ne arts a.id (g a) t b
        (h2 b (List.mem_cons_of_mem a hb)) hbid
    rw [List.foldl_cons,
        foldl_update_char g t L ((updateArtifactL arts a.id (g a) t).2)
          h1' h2' (List.nodup_cons.mp h3).2,
        harts', List.map_map]
    refine List.map_congr_left fun x hx => ?_
    by_cases hxa : x.id = a.id
    · have hxeq : x = a := List.inj_on_of_nodup_map h1 hx haarts hxa
      subst hxeq
      simp [Function.comp, applyUpdate_id, hanotL]
    · simp [Function.comp, hxa]

/-- The components of a whole `migrateAll` batch, as functions of the
snapshot list of pending artifacts. -/
theorem migrateAll_parts (s : MemStorage) (env : ApmEnv) (t : Nat) :
    (migrateAll s env t).2.1.authCalls
        = ((s.getArtifactsByStatus "pending").map stepAuth).sum
    ∧ (migrateAll s env t).2.1.pushes
        = (s.getArtifactsByStatus "pending").flatMap (stepPushes env)
    ∧ (migrateAll s env t).2.2
        = (s.getArtifactsByStatus "pending").map (stepResult env)
    ∧ (migrateAll s env t).1.migrations
        = s.migrations ++ mkPendingMigs env t s.migrationId
            (s.getArtifactsByStatus "pending")
    ∧ (migrateAll s env t).1.artifacts
        = (s.getArtifactsByStatus "pending").foldl
            (fun arts a => (updateArtifactL arts a.id (stepUpdate env a) t).2)
            s.artifacts := by
  unfold migrateAll
  rw [migrateFold_eq]
  simp

/-- Membership of an id among the ids with a given status is that
artifact's own status check, given globally distinct ids. -/
theorem status_ids_cond (s : MemStorage) (st : String)
    (h : (s.artifacts.map (fun a => a.id)).Nodup) (x : Artifact)
    (hx : x ∈ s.artifacts) :
    (x.id ∈ (s.getArtifactsByStatus st).map (fun a => a.id))
      ↔ (x.status == st) = true := by
  show (x.id ∈ (s.artifacts.filter (fun a => a.status == st)).map
      (fun a => a.id)) ↔ _
  constructor
  · intro hmem
    rcases List.mem_map.mp hmem with ⟨b, hbf, hbid⟩
    have hbx : b = x :=
      List.inj_on_of_nodup_map h (List.mem_of_mem_filter hbf) hx hbid
    have hb' : (b.status == st) = true := by
      simpa using (List.mem_filter.mp hbf).2
    rw [← hbx]; exact hb'
  · intro hp
    exact List.mem_map_of_mem (fun a => a.id)
      ((List.mem_filter (p := fun a => a.status == st)).mpr ⟨hx, hp⟩)

/-- `migrateAll` artifact ledger in closed form: every pending artifact
is updated according to its own load outcome; all other artifacts are
untouched. -/
theorem migrateAll_artifacts_char (s : MemStorage) (env : ApmEnv) (t : Nat)
    (h : (s.artifacts.map (fun a => a.id)).Nodup) :
    (migrateAll s env t).1.artifacts
      = s.artifacts.map (fun x =>
          if x.status == "pending" then applyUpdate x (stepUpdate env x) t
          else x) := by
  have hparts := (migrateAll_parts s env t).2.2.2.2
  rw [hparts, foldl_update_char (stepUpdate env) t
        (s.getArtifactsByStatus "pending") s.artifacts h
        (fun a ha => List.mem_of_mem_filter ha)
        ((h.sublist ((List.filter_sublist s.artifacts).map (fun a => a.id))))]
  refine List.map_congr_left fun x hx => ?_
  have hcond := status_ids_cond s "pending" h x hx
  by_cases hp : (x.status == "pending") = true
  · simp [hcond, hp]
  · simp [hcond, hp]

/-- One `POST /api/transform` iteration only rewrites its artifact's
row. -/
theorem transformStep_eq (now : String) (t : Nat) (s : MemStorage)
    (a : Artifact) :
    transformStep now t s a
      = { s with artifacts :=
            (updateArtifactL s.artifacts a.id (transformUpd now a) t).2 } := by
  cases hT : transform a.originalData now with
  | ok d => simp [transformStep, transformUpd, hT, MemStorage.updateArtifact]
  | error e => simp [transformStep, transformUpd, hT, MemStorage.updateArtifact]

/-- Closed form of the `POST /api/transform` fold. -/
theorem transformFold_eq (now : String) (t : Nat) :
    ∀ (L : List Artifact) (s : MemStorage),
    L.foldl (transformStep now t) s
      = { s with artifacts :=
            (L.foldl
              (fun arts a => (updateArtifactL arts a.id (transformUpd now a) t).2)
              s.artifacts) }
  | [], s => by simp
  | a :: L, s => by
    rw [List.foldl_cons, transformStep_eq, transformFold_eq now t L]
    simp

/-- `transformAll` artifact ledger in closed form: every `new` artifact
moves to `pending` with its canonical record, or to `error` (with no
message recorded) when its transformation fails; all other artifacts are
untouched. -/
theorem transformAll_artifacts_char (s : MemStorage) (now : String) (t : Nat)
    (h : (s.artifacts.map (fun a => a.id)).Nodup) :
    (transformAll s now t).2.artifacts
      = s.artifacts.map (fun x =>
          if x.status == "new" then applyUpdate x (transformUpd now x) t
          else x) := by
  show ((s.getArtifactsByStatus "new").foldl (transformStep now t) s).artifacts = _
  rw [transformFold_eq, foldl_update_char (transformUpd now) t
        (s.getArtifactsByStatus "new") s.artifacts h
        (fun a ha => List.mem_of_mem_filter ha)
        ((h.sublist ((List.filter_sublist s.artifacts).map (fun a => a.id))))]
  refine List.map_congr_left fun x hx => ?_
  have hcond := status_ids_cond s "new" h x hx
  by_cases hp : (x.status == "new") = true
  · simp [hcond, hp]
  · simp [hcond, hp]

/-- Total authentication calls of a batch: one per artifact that reaches
the loader. -/
theorem sum_stepAuth : ∀ (L : List Artifact),
    (L.map stepAuth).sum
      = (L.filter (fun a => a.dataForLoad.isSome)).length
  | [] => rfl
  | a :: L => by
    have ih := sum_stepAuth L
    cases h : a.dataForLoad <;>
      simp [stepAuth, h, List.filter_cons] <;> omega

/-- One migration record is minted per batch artifact. -/
theorem mkPendingMigs_length (env : ApmEnv) (t : Nat) :
    ∀ (n : Nat) (L : List Artifact),
    (mkPendingMigs env t n L).length = L.length
  | _, [] => rfl
  | n, _ :: L => by
    simp [mkPendingMigs, mkPendingMigs_length env t (n + 1) L]

/-- The migration record of one batch iteration belongs to its
artifact. -/
theorem stepMig_artifactId (env : ApmEnv) (t n : Nat) (a : Artifact) :
    (stepMig env t n a).artifactId = a.id := by
  cases h : a.dataForLoad with
  | none => simp [stepMig, h]
  | some d => cases ho : loadOutcome env d a.type <;> simp [stepMig, h, ho]

/-- The batch's appended migration records target exactly the batch
artifacts, in order. -/
theorem mkPendingMigs_artifactIds (env : ApmEnv) (t : Nat) :
    ∀ (n : Nat) (L : List Artifact),
    (mkPendingMigs env t n L).map (fun m => m.artifactId)
      = L.map (fun a => a.id)
  | _, [] => rfl
  | n, a :: L => by
    simp [mkPendingMigs, stepMig_artifactId,
      mkPendingMigs_artifactIds env t (n + 1) L]

/-- The response entry of one batch iteration belongs to its
artifact. -/
theorem stepResult_artifactId (env : ApmEnv) (a : Artifact) :
    (stepResult env a).artifactId = a.id := by
  cases h : a.dataForLoad with
  | none => simp [stepResult, h]
  | some d => cases ho : loadOutcome env d a.type <;> simp [stepResult, h, ho]

/-- Successes and failures partition a batch response. -/
theorem migResult_partition : ∀ (rs : List MigResult),
    (rs.filter (fun r => r.success)).length
      + (rs.filter (fun r => !r.success)).length = rs.length
  | [] => rfl
  | r :: rs => by
    have ih := migResult_partition rs
    by_cases h : r.success <;> simp [List.filter_cons, h] <;> omega

/-- When authentication fails, a loader call posts nothing. -/
theorem stepPushes_authFail (env : ApmEnv) (a : Artifact) (m : String)
    (h : env.auth = .fail m) : stepPushes env a = [] := by
  cases hd : a.dataForLoad with
  | none => simp [stepPushes, hd]
  | some d => simp [stepPushes, hd, loadPushes, load, h]

/-- When authentication fails, every batch iteration reports failure. -/
theorem stepResult_authFail (env : ApmEnv) (a : Artifact) (m : String)
    (h : env.auth = .fail m) : (stepResult env a).success = false := by
  cases hd : a.dataForLoad with
  | none => simp [stepResult, hd]
  | some d => simp [stepResult, hd, loadOutcome, load, h]

/-- When authentication fails, every batch iteration sets its artifact
to `error`. -/
theorem stepUpdate_authFail (env : ApmEnv) (a : Artifact) (m : String)
    (h : env.auth = .fail m) : stepUpdate env a = { status := some "error" } := by
  cases hd : a.dataForLoad with
  | none => simp [stepUpdate, hd]
  | some d => simp [stepUpdate, hd, loadOutcome, load, h]

/-- A flatMap over empty contributions is empty. -/
theorem flatMap_eq_nil_of (f : Artifact → List (String × Json)) :
    ∀ (L : List Artifact), (∀ a ∈ L, f a = []) → L.flatMap f = []
  | [], _ => rfl
  | a :: L, h => by
    rw [List.flatMap_cons, h a (List.mem_cons_self a L),
      flatMap_eq_nil_of f L (fun b hb => h b (List.mem_cons_of_mem a hb))]
    rfl

/-- Every batch artifact owns one of the minted migration records. -/
theorem mem_mkPendingMigs (env : ApmEnv) (t : Nat) :
    ∀ (n : Nat) (L : List Artifact) (a : Artifact), a ∈ L →
    ∃ k, stepMig env t k a ∈ mkPendingMigs env t n L
  | n, b :: L, a, ha => by
    rcases List.mem_cons.mp ha with h | h
    · refine ⟨n, ?_⟩
      rw [h]
      exact List.mem_cons_self _ _
    · obtain ⟨k, hk⟩ := mem_mkPendingMigs env t (n + 1) L a h
      exact ⟨k, List.mem_cons_of_mem _ hk⟩

/-- When authentication fails, every minted migration record reports
failure. -/
theorem stepMig_status_authFail (env : ApmEnv) (t n : Nat) (a : Artifact)
    (m : String) (h : env.auth = .fail m) :
    (stepMig env t n a).status = "failed" := by
  cases hd : a.dataForLoad with
  | none => simp [stepMig, hd]
  | some d => simp [stepMig, hd, loadOutcome, load, h]

/-- Under failing authentication, the batch's appended migration records
are exactly one failure per pending artifact, in order. -/
theorem mkPendingMigs_map_authFail (env : ApmEnv) (t : Nat) (m : String)
    (h : env.auth = .fail m) :
    ∀ (n : Nat) (L : List Artifact),
    (mkPendingMigs env t n L).map (fun mg => (mg.artifactId, mg.status))
      = L.map (fun a => (a.id, "failed"))
  | _, [] => rfl
  | n, a :: L => by
    simp [mkPendingMigs, stepMig_artifactId,
      stepMig_status_authFail env t n a m h,
      mkPendingMigs_map_authFail env t m h (n + 1) L]

/-- A pending artifact whose batch iteration writes a plain error
status ends in `error` in the final ledger. -/
theorem pending_error_mem (s : MemStorage) (env : ApmEnv) (t : Nat)
    (a : Artifact)
    (hn : (s.artifacts.map (fun x => x.id)).Nodup)
    (ha : a ∈ s.getArtifactsByStatus "pending")
    (hupd : stepUpdate env a = { status := some "error" }) :
    ∃ x ∈ (migrateAll s env t).1.artifacts,
      x.id = a.id ∧ x.status = "error" := by
  have hmem : a ∈ s.artifacts := List.mem_of_mem_filter ha
  have ha' : a ∈ s.artifacts.filter
      (fun (x : Artifact) => x.status == "pending") := ha
  have hstat : (a.status == "pending") = true :=
    ((List.mem_filter
      (p := fun (x : Artifact) => x.status == "pending")).mp ha').2
  refine ⟨applyUpdate a (stepUpdate env a) t, ?_, applyUpdate_id a _ t, ?_⟩
  · rw [migrateAll_artifacts_char s env t hn]
    have : (fun x => if x.status == "pending"
        then applyUpdate x (stepUpdate env x) t else x) a
        = applyUpdate a (stepUpdate env a) t := by simp [hstat]
    exact this ▸ List.mem_map_of_mem _ hmem
  · rw [hupd]
    rfl

/-! ## Claims -/

/-- C1 counterexample.  The claim: in any batch whose canonical records
form an acyclic reference graph, the push of an artifact B referenced by
an artifact A occurs strictly before the push of A.  `acyclicStore`'s
graph is acyclic: artifact 1 (a trading partner whose canonical record's
`endpoints` list references `ep-2`, the `originalId` of endpoint
artifact 2) depends on artifact 2, whose record consists of its own id
alone and references nothing.  Yet the dependent partner is pushed
FIRST: the creation calls are issued in plain ledger order, so the
dependency `ep-2` is pushed strictly after its dependent and the claim
fails. -/
theorem C1_counterexample :
    ((partnerData.member "partner").bind (fun p => p.member "endpoints"))
      = some (.arr [.str "ep-2"])
    ∧ plainEndpointData = .obj [("endpoint", .obj [("id", .str "ep-2")])]
    ∧ (acyclicStore.artifacts.map (fun a => a.originalId)) = ["p-1", "ep-2"]
    ∧ (migrateAll acyclicStore okEnv 5).2.1.pushes
      = [("trading_partner", partnerData), ("endpoint", plainEndpointData)] := by
  refine ⟨by decide, by decide, by decide, by decide⟩

/-- C1 (amended): `POST /api/migrate` computes no migration order at
all: the creation calls of a batch are issued exactly in the stored
order of the pending artifacts (each contributing its push when the
loader reaches the creation endpoint), regardless of any references
between their canonical records. -/
theorem C1_theorem (s : MemStorage) (env : ApmEnv) (t : Nat) :
    (migrateAll s env t).2.1.pushes
      = (s.getArtifactsByStatus "pending").flatMap (stepPushes env) :=
  (migrateAll_parts s env t).2.1

/-- C4 counterexample.  The claim: every member of a reference cycle
fails with `CycleDetectedError` and no network push is issued for any
cycle member.  Artifacts 1 and 2 of `batchStore` reference each other
(partner 1 lists endpoint `ep-2`; endpoint 2 names partner `p-1`), yet
the batch issues all three creation calls, every artifact ends
`migrated` and every response entry is a success — no cycle detection
exists anywhere in the code. -/
theorem C4_counterexample :
    ((endpointData.member "endpoint").bind (fun e => e.member "partnerId"))
      = some (.str "p-1")
    ∧ (migrateAll batchStore okEnv 5).2.1.pushes.length = 3
    ∧ ((migrateAll batchStore okEnv 5).1.artifacts.map (fun a => a.status))
      = ["migrated", "migrated", "migrated"]
    ∧ ((migrateAll batchStore okEnv 5).2.2.map (fun r => r.success))
      = [true, true, true] := by
  refine ⟨by decide, by decide, by decide, by decide⟩

/-- C4 (amended): no cycle detection is performed.  Every pending
artifact whose transformed data is present (and whose type is supported
and payload wrapper valid) has a creation call issued for it when
authentication succeeds, cyclic references notwithstanding. -/
theorem C4_theorem (s : MemStorage) (env : ApmEnv) (t : Nat) (a : Artifact)
    (d : Json) (k tok : String)
    (ha : a ∈ s.getArtifactsByStatus "pending")
    (hd : a.dataForLoad = some d)
    (hauth : env.auth = .ok tok)
    (hk : typeKey a.type = some k)
    (hm : d.memberTruthy k = true) :
    (a.type, d) ∈ (migrateAll s env t).2.1.pushes := by
  rw [(migrateAll_parts s env t).2.1]
  refine List.mem_flatMap.mpr ⟨a, ha, ?_⟩
  simp only [stepPushes, hd, loadPushes, load, hauth, hk, hm]
  cases hp : env.push a.type d <;> simp [hp]

/-- C4 witness: the partner of the concrete cyclic batch is pushed. -/
theorem C4_witness :
    ("trading_partner", partnerData) ∈ (migrateAll batchStore okEnv 5).2.1.pushes :=
  C4_theorem batchStore okEnv 5 partnerArtifact partnerData "partner" "tok"
    (by decide) (by decide) rfl rfl (by decide)

/-- C6: migrating a batch of N pending artifacts yields one response
entry per artifact (so N−M successes when exactly M fail), appends
exactly one migration record per artifact, and a per-artifact failure
never aborts the processing of siblings — every artifact of the batch
gets its own entry and record no matter how the others fare. -/
theorem C6_theorem (s : MemStorage) (env : ApmEnv) (t : Nat) :
    (migrateAll s env t).2.2.length
        = (s.getArtifactsByStatus "pending").length
    ∧ ((migrateAll s env t).2.2.map (fun r => r.artifactId))
        = (s.getArtifactsByStatus "pending").map (fun a => a.id)
    ∧ ((migrateAll s env t).2.2.filter (fun r => r.success)).length
        = (s.getArtifactsByStatus "pending").length
          - ((migrateAll s env t).2.2.filter (fun r => !r.success)).length
    ∧ ((migrateAll s env t).1.migrations.map (fun m => m.artifactId))
        = s.migrations.map (fun m => m.artifactId)
          ++ (s.getArtifactsByStatus "pending").map (fun a => a.id) := by
  have hres := (migrateAll_parts s env t).2.2.1
  have hmig := (migrateAll_parts s env t).2.2.2.1
  refine ⟨?_, ?_, ?_, ?_⟩
  · rw [hres, List.length_map]
  · rw [hres, List.map_map]
    exact List.map_congr_left fun a _ => stepResult_artifactId env a
  · have hp := migResult_partition (migrateAll s env t).2.2
    have hlen : (migrateAll s env t).2.2.length
        = (s.getArtifactsByStatus "pending").length := by
      rw [hres, List.length_map]
    omega
  · rw [hmig, List.map_append, mkPendingMigs_artifactIds]

/-- C7 counterexample.  The claim: a batch of N artifacts triggers
exactly one authentication call.  The three-artifact batch `batchStore`
issues three: `ApmLoader.load` calls `getApmToken` afresh on every
invocation and no token cache exists. -/
theorem C7_counterexample :
    (migrateAll batchStore okEnv 5).2.1.authCalls = 3
    ∧ (migrateAll batchStore okEnv 5).2.1.authCalls ≠ 1 := by
  refine ⟨by decide, by decide⟩

/-- C7 (amended): there is no token cache: every artifact that reaches
the loader issues its own authentication call, so a batch issues exactly
as many authentication calls as it has pending artifacts with
transformed data present. -/
theorem C7_theorem (s : MemStorage) (env : ApmEnv) (t : Nat) :
    (migrateAll s env t).2.1.authCalls
      = ((s.getArtifactsByStatus "pending").filter
          (fun a => a.dataForLoad.isSome)).length := by
  rw [(migrateAll_parts s env t).1, sum_stepAuth]

/-! ## C2: determinism of the transformer modulo the clock -/

/-- Stripping the clock fields of a partner record erases its only
`now`-dependence. -/
theorem strip_partnerRecord (p : Json) (u v : String) :
    stripClockJ (partnerRecord p u) = stripClockJ (partnerRecord p v) := rfl

/-- Same for channel records. -/
theorem strip_channelRecord (c : Json) (u v : String) :
    stripClockJ (channelRecord c u) = stripClockJ (channelRecord c v) := rfl

/-- Same for certificate records. -/
theorem strip_certificateRecord (c : Json) (u v : String) :
    stripClockJ (certificateRecord c u) = stripClockJ (certificateRecord c v) := rfl

/-- Same for map records. -/
theorem strip_mapRecord (m : Json) (u v : String) :
    stripClockJ (mapRecord m u) = stripClockJ (mapRecord m v) := rfl

/-- Same for endpoint records. -/
theorem strip_endpointRecord (e : Json) (u v : String) :
    stripClockJ (endpointRecord e u) = stripClockJ (endpointRecord e v) := rfl

/-- Same for schema records. -/
theorem strip_schemaRecord (sc : Json) (u v : String) :
    stripClockJ (schemaRecord sc u) = stripClockJ (schemaRecord sc v) := rfl

/-- Same for generic records (whose `created` fallback and `modified`
field are the clock-dependent parts). -/
theorem strip_genericRecord (k : String) (e : Json) (u v : String) :
    stripClockJ (genericRecord k e u) = stripClockJ (genericRecord k e v) := rfl

/-- `transformTradingPartner` is clock-independent after stripping. -/
theorem strip_transformTradingPartner (doc : Json) (u v : String) :
    (transformTradingPartner doc u).map stripClockJ
      = (transformTradingPartner doc v).map stripClockJ := by
  unfold transformTradingPartner
  cases doc.member "Partner" with
  | none => rfl
  | some p =>
    by_cases hp : Json.truthy p
    · simp only [if_neg (not_not_intro hp), Except.map]
      rfl
    · simp only [if_pos hp]

/-- `transformChannel` is clock-independent after stripping. -/
theorem strip_transformChannel (doc : Json) (u v : String) :
    (transformChannel doc u).map stripClockJ
      = (transformChannel doc v).map stripClockJ := by
  unfold transformChannel
  cases doc.member "Channel" with
  | none => rfl
  | some c =>
    by_cases hp : Json.truthy c
    · simp only [if_neg (not_not_intro hp), Except.map]
      rfl
    · simp only [if_pos hp]

/-- `transformCertificate` is clock-independent after stripping. -/
theorem strip_transformCertificate (doc : Json) (u v : String) :
    (transformCertificate doc u).map stripClockJ
      = (transformCertificate doc v).map stripClockJ := by
  unfold transformCertificate
  cases doc.member "Certificate" with
  | none => rfl
  | some c =>
    by_cases hp : Json.truthy c
    · simp only [if_neg (not_not_intro hp), Except.map]
      rfl
    · simp only [if_pos hp]

/-- `transformMap` is clock-independent after stripping. -/
theorem strip_transformMap (doc : Json) (u v : String) :
    (transformMap doc u).map stripClockJ
      = (transformMap doc v).map stripClockJ := by
  unfold transformMap
  cases doc.member "Map" with
  | none => rfl
  | some m =>
    by_cases hp : Json.truthy m
    · simp only [if_neg (not_not_intro hp), Except.map]
      rfl
    · simp only [if_pos hp]

/-- `transformEndpoint` is clock-independent after stripping. -/
theorem strip_transformEndpoint (doc : Json) (u v : String) :
    (transformEndpoint doc u).map stripClockJ
      = (transformEndpoint doc v).map stripClockJ := by
  unfold transformEndpoint
  cases doc.member "Endpoint" with
  | none => rfl
  | some e =>
    by_cases hp : Json.truthy e
    · simp only [if_neg (not_not_intro hp), Except.map]
      rfl
    · simp only [if_pos hp]

/-- `transformSchema` is clock-independent after stripping. -/
theorem strip_transformSchema (doc : Json) (u v : String) :
    (transformSchema doc u).map stripClockJ
      = (transformSchema doc v).map stripClockJ := by
  unfold transformSchema
  cases doc.member "Schema" with
  | none => rfl
  | some sc =>
    by_cases hp : Json.truthy sc
    · simp only [if_neg (not_not_intro hp), Except.map]
      rfl
    · simp only [if_pos hp]

/-- `transformGeneric` is clock-independent after stripping. -/
theorem strip_transformGeneric (doc : Json) (u v : String) :
    (transformGeneric doc u).map stripClockJ
      = (transformGeneric doc v).map stripClockJ := by
  unfold transformGeneric
  cases doc with
  | obj kvs =>
    cases kvs with
    | nil => rfl
    | cons kv rest =>
      cases kv with
      | mk k e =>
        simp only [Except.map]
        rw [strip_genericRecord k e u v]
  | null => rfl
  | bool b => rfl
  | str s => rfl
  | num n => rfl
  | arr xs => rfl

/-- When the document's type is detected as `trading_partner`, so is its
dispatch. -/
theorem transformBody_tp (doc : Json) (w : String)
    (h : determineArtifactType doc = "trading_partner") :
    transformBody doc w = transformTradingPartner doc w := by
  simp [transformBody, h]

/-- Channel dispatch of `transformBody`. -/
theorem transformBody_channel (doc : Json) (w : String)
    (h : determineArtifactType doc = "channel") :
    transformBody doc w = transformChannel doc w := by
  simp [transformBody, h]

/-- Certificate dispatch of `transformBody`. -/
theorem transformBody_certificate (doc : Json) (w : String)
    (h : determineArtifactType doc = "certificate") :
    transformBody doc w = transformCertificate doc w := by
  simp [transformBody, h]

/-- Map dispatch of `transformBody`. -/
theorem transformBody_map (doc : Json) (w : String)
    (h : determineArtifactType doc = "map") :
    transformBody doc w = transformMap doc w := by
  simp [transformBody, h]

/-- Endpoint dispatch of `transformBody`. -/
theorem transformBody_endpoint (doc : Json) (w : String)
    (h : determineArtifactType doc = "endpoint") :
    transformBody doc w = transformEndpoint doc w := by
  simp [transformBody, h]

/-- Schema dispatch of `transformBody`. -/
theorem transformBody_schema (doc : Json) (w : String)
    (h : determineArtifactType doc = "schema") :
    transformBody doc w = transformSchema doc w := by
  simp [transformBody, h]

/-- Generic dispatch of `transformBody`. -/
theorem transformBody_generic (doc : Json) (w : String)
    (h : determineArtifactType doc = "other") :
    transformBody doc w = transformGeneric doc w := by
  simp [transformBody, h]

/-- The transformer body is clock-independent after stripping: dispatch
never looks at the clock and each mapping's clock-dependence sits only in
the stripped fields. -/
theorem strip_transformBody (doc : Json) (u v : String) :
    (transformBody doc u).map stripClockJ
      = (transformBody doc v).map stripClockJ := by
  by_cases h1 : doc.memberTruthy "Partner"
  · have h : determineArtifactType doc = "trading_partner" := by
      simp [determineArtifactType, h1]
    rw [transformBody_tp doc u h, transformBody_tp doc v h]
    exact strip_transformTradingPartner doc u v
  by_cases h2 : doc.memberTruthy "Channel"
  · have h : determineArtifactType doc = "channel" := by
      simp [determineArtifactType, h1, h2]
    rw [transformBody_channel doc u h, transformBody_channel doc v h]
    exact strip_transformChannel doc u v
  by_cases h3 : doc.memberTruthy "Certificate"
  · have h : determineArtifactType doc = "certificate" := by
      simp [determineArtifactType, h1, h2, h3]
    rw [transformBody_certificate doc u h, transformBody_certificate doc v h]
    exact strip_transformCertificate doc u v
  by_cases h4 : doc.memberTruthy "Map"
  · have h : determineArtifactType doc = "map" := by
      simp [determineArtifactType, h1, h2, h3, h4]
    rw [transformBody_map doc u h, transformBody_map doc v h]
    exact strip_transformMap doc u v
  by_cases h5 : doc.memberTruthy "Endpoint"
  · have h : determineArtifactType doc = "endpoint" := by
      simp [determineArtifactType, h1, h2, h3, h4, h5]
    rw [transformBody_endpoint doc u h, transformBody_endpoint doc v h]
    exact strip_transformEndpoint doc u v
  by_cases h6 : doc.memberTruthy "Schema"
  · have h : determineArtifactType doc = "schema" := by
      simp [determineArtifactType, h1, h2, h3, h4, h5, h6]
    rw [transformBody_schema doc u h, transformBody_schema doc v h]
    exact strip_transformSchema doc u v
  · have h : determineArtifactType doc = "other" := by
      simp [determineArtifactType, h1, h2, h3, h4, h5, h6]
    rw [transformBody_generic doc u h, transformBody_generic doc v h]
    exact strip_transformGeneric doc u v

/-- C2 counterexample.  The claim: `transform` is pure and
deterministic — the same input document yields byte-identical output on
every call.  Each mapping stamps `modified: new Date().toISOString()`
into its output, so two calls over the identical partner document at
different instants give different canonical records. -/
theorem C2_counterexample :
    transform partnerDoc "2024-01-01T00:00:00.000Z"
      ≠ transform partnerDoc "2024-01-02T00:00:00.000Z" := by decide

/-- C2 (amended): `transform` performs no I/O other than reading the
clock, and it is deterministic modulo the clock: for every document, two
calls agree exactly on everything outside the clock-stamped fields (the
`modified` field of every mapping and the `created` fallback of the
generic mapping); with the clock reading fixed, the output is
identical. -/
theorem C2_theorem (doc : Json) (u v : String) :
    stripClock (transform doc u) = stripClock (transform doc v) := by
  have h := strip_transformBody doc u v
  unfold transform stripClock
  cases h1 : transformBody doc u with
  | ok v₁ =>
    cases h2 : transformBody doc v with
    | ok v₂ =>
      rw [h1, h2] at h
      simpa [Except.map] using h
    | error e₂ =>
      rw [h1, h2] at h
      simp [Except.map] at h
  | error e₁ =>
    cases h2 : transformBody doc v with
    | ok v₂ =>
      rw [h1, h2] at h
      simp [Except.map] at h
    | error e₂ =>
      rw [h1, h2] at h
      simp [Except.map] at h
      simp [Except.map, h]

/-! ## C3: migration preconditions -/

/-- C3 counterexample.  The claim: migration is attempted only on
`pending` artifacts with transformed data; any other state (e.g. `new`)
yields `InvalidStateError` with no network call, unchanged status and no
appended attempt.  `newWithDataStore`'s artifact has status `new` and
transformed data; `migrateOne` authenticates, posts, appends a
`success` attempt and sets the artifact to `migrated` — there is no
status check and no `InvalidStateError` anywhere in the code.  The
batch half fails too: `pendingDatalessStore`'s artifact is `pending`
without transformed data (so not in the claim's permitted state), yet
`migrateAll` appends a failed attempt for it and moves it to `error`
instead of leaving it untouched with an `InvalidStateError`. -/
theorem C3_counterexample :
    ((newWithDataStore.getArtifact 1).map (fun a => a.status)) = some "new"
    ∧ (migrateOne newWithDataStore 1 okEnv 7).2.2.authCalls = 1
    ∧ (migrateOne newWithDataStore 1 okEnv 7).2.2.pushes.length = 1
    ∧ ((migrateOne newWithDataStore 1 okEnv 7).2.1.artifacts.map
        (fun a => a.status)) = ["migrated"]
    ∧ (migrateOne newWithDataStore 1 okEnv 7).2.1.migrations.length = 1
    ∧ ((migrateAll pendingDatalessStore okEnv 3).1.migrations.map
        (fun m => (m.artifactId, m.status))) = [(1, "failed")]
    ∧ ((migrateAll pendingDatalessStore okEnv 3).1.artifacts.map
        (fun a => a.status)) = ["error"] := by
  refine ⟨by decide, by decide, by decide, by decide, by decide, by decide,
    by decide⟩

/-- C3 (amended): `migrateOne` gates only on the presence of
`transformedData`: a missing artifact is answered 404 and a missing (or
falsy) `transformedData` is answered 400, in both cases with no network
call and no store mutation; when `transformedData` is present, the load
is attempted — one authentication call and the loader's creation posts —
regardless of the artifact's status.  `migrateAll` restricts its batch
to `pending` artifacts only through its `getArtifactsByStatus` query
(one response entry per pending artifact, none for any other), and a
pending artifact lacking transformed data is not rejected silently: it
receives a failed `Missing transformed data` attempt and transitions to
`error`. -/
theorem C3_theorem (s : MemStorage) (i : Nat) (env : ApmEnv) (t : Nat) :
    (s.getArtifact i = none → migrateOne s i env t = (.notFound, s, {}))
    ∧ (∀ a, s.getArtifact i = some a → a.dataForLoad = none →
        migrateOne s i env t = (.notTransformed, s, {}))
    ∧ (∀ a d, s.getArtifact i = some a → a.dataForLoad = some d →
        (migrateOne s i env t).2.2.authCalls = 1
        ∧ (migrateOne s i env t).2.2.pushes = loadPushes env d a.type)
    ∧ ((migrateAll s env t).2.2.map (fun r => r.artifactId)
        = (s.getArtifactsByStatus "pending").map (fun a => a.id))
    ∧ (∀ a ∈ s.getArtifactsByStatus "pending", a.dataForLoad = none →
        (∃ m ∈ (migrateAll s env t).1.migrations,
          m.artifactId = a.id ∧ m.status = "failed"
          ∧ m.errorMessage = some "Missing transformed data")
        ∧ ((s.artifacts.map (fun x => x.id)).Nodup →
            ∃ x ∈ (migrateAll s env t).1.artifacts,
              x.id = a.id ∧ x.status = "error")) := by
  refine ⟨fun h => by simp [migrateOne, h],
          fun a ha hd => by simp [migrateOne, ha, hd],
          fun a d ha hd => ?_, ?_, fun a ha hd => ⟨?_, fun hn => ?_⟩⟩
  · simp only [migrateOne, ha, hd, load_eq]
    cases ho : loadOutcome env d a.type <;> simp [ho]
  · rw [(migrateAll_parts s env t).2.2.1, List.map_map]
    exact List.map_congr_left fun a _ => stepResult_artifactId env a
  · rw [(migrateAll_parts s env t).2.2.2.1]
    obtain ⟨k, hk⟩ := mem_mkPendingMigs env t s.migrationId _ a ha
    exact ⟨stepMig env t k a, List.mem_append_right _ hk,
      by simp [stepMig, hd], by simp [stepMig, hd], by simp [stepMig, hd]⟩
  · exact pending_error_mem s env t a hn ha (by simp [stepUpdate, hd])

/-- C3 witness: the modes at concrete inputs — a missing id, missing
transformed data, a `new` artifact with transformed data that gets
pushed anyway, and the batch treatment of a pending artifact without
transformed data. -/
theorem C3_witness :
    migrateOne newDatalessStore 2 okEnv 0 = (.notFound, newDatalessStore, {})
    ∧ migrateOne newDatalessStore 1 okEnv 0
        = (.notTransformed, newDatalessStore, {})
    ∧ (migrateOne newWithDataStore 1 okEnv 7).2.2.authCalls = 1
    ∧ ((migrateAll pendingDatalessStore okEnv 3).1.migrations.any
        (fun m => m.artifactId == 1 && m.status == "failed")) = true
    ∧ ((migrateAll pendingDatalessStore okEnv 3).1.artifacts.any
        (fun x => x.id == 1 && x.status == "error")) = true := by
  refine ⟨(C3_theorem newDatalessStore 2 okEnv 0).1 rfl,
          (C3_theorem newDatalessStore 1 okEnv 0).2.1 datalessArtifact rfl rfl,
          ((C3_theorem newWithDataStore 1 okEnv 7).2.2.1 newWithDataArtifact
             partnerData rfl rfl).1, ?_, ?_⟩
  · obtain ⟨m, hm, h1, h2, h3⟩ :=
      ((C3_theorem pendingDatalessStore 1 okEnv 3).2.2.2.2
        pendingDatalessArtifact (by decide) rfl).1
    exact List.any_eq_true.mpr
      ⟨m, hm, by simp [h1, h2, pendingDatalessArtifact]⟩
  · obtain ⟨x, hx, hid, hst⟩ :=
      ((C3_theorem pendingDatalessStore 1 okEnv 3).2.2.2.2
        pendingDatalessArtifact (by decide) rfl).2 (by decide)
    exact List.any_eq_true.mpr
      ⟨x, hx, by simp [hid, hst, pendingDatalessArtifact]⟩

/-! ## C5: authentication failure semantics -/

/-- C5 counterexample.  The claim: an authentication failure aborts the
batch's remaining pushes, leaves not-yet-attempted artifacts `pending`
with no appended attempt, and surfaces as a single batch-level failure.
With failing credentials over the three-pending-artifact `batchStore`,
the code instead attempts every artifact (three authentication calls),
appends a failed attempt for each, sets every status to `error` (none
remain `pending`), and returns three per-item failures. -/
theorem C5_counterexample :
    (migrateAll batchStore authFailEnv 9).2.1.authCalls = 3
    ∧ (migrateAll batchStore authFailEnv 9).2.1.pushes = []
    ∧ ((migrateAll batchStore authFailEnv 9).1.artifacts.map
        (fun a => a.status)) = ["error", "error", "error"]
    ∧ ((migrateAll batchStore authFailEnv 9).1.migrations.map
        (fun m => (m.artifactId, m.status)))
        = [(1, "failed"), (2, "failed"), (3, "failed")]
    ∧ ((migrateAll batchStore authFailEnv 9).2.2.map (fun r => r.success))
        = [false, false, false] := by
  refine ⟨by decide, by decide, by decide, by decide, by decide⟩

/-- C5 (amended): when the credential exchange fails, no creation call
is ever posted, but the batch is not aborted: every pending artifact
with transformed data still triggers its own authentication call, the
appended migration records are exactly one `failed` attempt per pending
artifact (attributed to it, in order), every pending artifact
transitions to `error` (not left `pending`), and the caller receives
one failure entry per artifact rather than a single batch-level
failure. -/
theorem C5_theorem (s : MemStorage) (env : ApmEnv) (t : Nat) (m : String)
    (hauth : env.auth = .fail m)
    (hn : (s.artifacts.map (fun a => a.id)).Nodup) :
    (migrateAll s env t).2.1.pushes = []
    ∧ (migrateAll s env t).2.1.authCalls
        = ((s.getArtifactsByStatus "pending").filter
            (fun a => a.dataForLoad.isSome)).length
    ∧ (∀ r ∈ (migrateAll s env t).2.2, r.success = false)
    ∧ (∀ a ∈ s.getArtifactsByStatus "pending",
        ∃ x ∈ (migrateAll s env t).1.artifacts,
          x.id = a.id ∧ x.status = "error")
    ∧ ((migrateAll s env t).1.migrations.map
        (fun mg => (mg.artifactId, mg.status)))
        = s.migrations.map (fun mg => (mg.artifactId, mg.status))
          ++ (s.getArtifactsByStatus "pending").map
              (fun a => (a.id, "failed")) := by
  refine ⟨?_, ?_, ?_, ?_, ?_⟩
  · rw [(migrateAll_parts s env t).2.1]
    exact flatMap_eq_nil_of _ _ (fun a _ => stepPushes_authFail env a m hauth)
  · rw [(migrateAll_parts s env t).1, sum_stepAuth]
  · intro r hr
    rw [(migrateAll_parts s env t).2.2.1] at hr
    rcases List.mem_map.mp hr with ⟨a, _, hra⟩
    rw [← hra]
    exact stepResult_authFail env a m hauth
  · intro a ha
    exact pending_error_mem s env t a hn ha
      (stepUpdate_authFail env a m hauth)
  · rw [(migrateAll_parts s env t).2.2.2.1, List.map_append,
      mkPendingMigs_map_authFail env t m hauth]

/-- C5 witness: the amended behavior at the concrete failing batch. -/
theorem C5_witness :
    (migrateAll batchStore authFailEnv 9).2.1.pushes = []
    ∧ (∀ r ∈ (migrateAll batchStore authFailEnv 9).2.2,
        r.success = false)
    ∧ ((migrateAll batchStore authFailEnv 9).1.migrations.map
        (fun mg => (mg.artifactId, mg.status)))
        = [(1, "failed"), (2, "failed"), (3, "failed")] := by
  have h := C5_theorem batchStore authFailEnv 9 "401 Unauthorized" rfl
    (by decide)
  refine ⟨h.1, h.2.2.1, ?_⟩
  rw [h.2.2.2.2]
  decide

/-! ## C8: transform failure handling -/

/-- C8 counterexample.  The claim: an artifact whose transformation
fails transitions to `error` with the failure message recorded, for
`transformOne` as well as `transformAll`.  `badArtifact`'s document
makes the transformer throw, yet `POST /api/transform/:id` answers 500
and leaves the store byte-identical: the artifact stays `new`, and no
message is recorded anywhere (the artifact schema has no error-message
column at all). -/
theorem C8_counterexample :
    transformOne badDocStore 1 "T" 3
      = (.err "Transformation failed: Invalid data structure", badDocStore)
    ∧ ((badDocStore.getArtifact 1).map (fun a => a.status)) = some "new" := by
  refine ⟨by decide, by decide⟩

/-- C8 (amended): on transformation failure, `transformOne` performs no
ledger mutation at all — the artifact keeps its status and the error
appears only in the HTTP response; `transformAll` does move each failing
`new` artifact to `error`, but records no message (none exists in the
schema), while sibling artifacts are processed independently: every
`new` artifact is updated exactly according to its own transformation
outcome and every other artifact is untouched. -/
theorem C8_theorem (s : MemStorage) (n : String) (t : Nat) :
    (∀ i a e, s.getArtifact i = some a →
        transform a.originalData n = .error e →
        (transformOne s i n t).1 = .err e ∧ (transformOne s i n t).2 = s)
    ∧ ((s.artifacts.map (fun a => a.id)).Nodup →
        (transformAll s n t).2.artifacts
          = s.artifacts.map (fun x =>
              if x.status == "new" then applyUpdate x (transformUpd n x) t
              else x)) := by
  refine ⟨fun i a e ha hT => ?_,
          fun hn => transformAll_artifacts_char s n t hn⟩
  constructor <;> simp [transformOne, ha, hT]

/-- C8 witness: the amended behavior at the concrete failing store. -/
theorem C8_witness :
    (transformOne badDocStore 1 "T" 3).2 = badDocStore
    ∧ (transformAll badDocStore "T" 3).2.artifacts
        = badDocStore.artifacts.map (fun x =>
            if x.status == "new" then applyUpdate x (transformUpd "T" x) 3
            else x) :=
  ⟨((C8_theorem badDocStore "T" 3).1 1 badArtifact
      "Transformation failed: Invalid data structure" rfl rfl).2,
   (C8_theorem badDocStore "T" 3).2 (by decide)⟩

/-! ## C9: transformation dispatch -/

/-- Retyping composed with the id filter is the id filter. -/
theorem retypeFun_pred (i : Nat) (ty : String) :
    ((fun (a : Artifact) => a.id == i) ∘
      (fun (x : Artifact) => if x.id == i then { x with type := ty } else x))
      = fun (x : Artifact) => x.id == i := by
  funext x
  by_cases h : x.id = i <;> simp [Function.comp, h]

/-- Looking an id up after retyping it. -/
theorem getArtifact_retype (s : MemStorage) (i : Nat) (ty : String) :
    (retype s i ty).getArtifact i
      = (s.getArtifact i).map
          (fun a => if a.id == i then { a with type := ty } else a) := by
  show (retypeL s.artifacts i ty).find? (fun a => a.id == i) = _
  unfold retypeL
  rw [List.find?_map, retypeFun_pred]
  rfl

/-- An update that does not name `type` commutes with retyping. -/
theorem updateArtifactL_retypeL (arts : List Artifact) (i : Nat)
    (ty : String) (u : ArtifactUpdate) (t : Nat) (hu : u.type = none) :
    (updateArtifactL (retypeL arts i ty) i u t).2
      = retypeL ((updateArtifactL arts i u t).2) i ty := by
  have hfind : (retypeL arts i ty).find? (fun a => a.id == i)
      = (arts.find? (fun a => a.id == i)).map
          (fun a => if a.id == i then { a with type := ty } else a) := by
    unfold retypeL
    rw [List.find?_map, retypeFun_pred]
  cases hf : arts.find? (fun x => x.id == i) with
  | none =>
    have hfind2 : (retypeL arts i ty).find? (fun a => a.id == i) = none := by
      rw [hfind, hf]
      rfl
    simp [updateArtifactL, hf, hfind2]
  | some a =>
    have haid : (a.id == i) = true :=
      List.find?_some (p := fun (x : Artifact) => x.id == i) hf
    have heq : a.id = i := by simpa using haid
    have hfind2 : (retypeL arts i ty).find? (fun a => a.id == i)
        = some { a with type := ty } := by
      rw [hfind, hf]
      simp [heq]
    simp only [updateArtifactL, hf, hfind2]
    unfold retypeL
    rw [List.map_map, List.map_map]
    refine List.map_congr_left fun x _ => ?_
    by_cases hx : x.id = i
    · have hgoal : applyUpdate { a with type := ty } u t
          = { applyUpdate a u t with type := ty } := by
        unfold applyUpdate
        rw [hu]
        rfl
      rw [heq] at hgoal
      simp [Function.comp, hx, applyUpdate_id, heq, hgoal]
    · simp [Function.comp, hx]

/-- `updateArtifact` on the whole store commutes with retyping when the
update does not name `type`. -/
theorem updateArtifact_retype (s : MemStorage) (i : Nat) (ty : String)
    (u : ArtifactUpdate) (t : Nat) (hu : u.type = none) :
    ((retype s i ty).updateArtifact i u t).2
      = retype ((s.updateArtifact i u t).2) i ty := by
  simp only [MemStorage.updateArtifact, retype]
  rw [updateArtifactL_retypeL s.artifacts i ty u t hu]

/-- C9 counterexample.  The claim: the applied transformation is
selected by the artifact's declared `type` field.  `mistypedArtifact`
declares `type = "channel"`, yet because its document's root element is
`Partner`, `transformOne` stores a partner-shaped canonical record
(whose inner `type` is `trading_partner`): the route passes only
`originalData` to the transformer, which re-derives the type from the
document's structure and ignores the declared column. -/
theorem C9_counterexample :
    ((mistypedStore.getArtifact 1).map (fun a => a.type)) = some "channel"
    ∧ (((transformOne mistypedStore 1 "T" 2).2.getArtifact 1).bind
        (fun a => a.transformedData))
      = some (.obj [("partner", .obj
          [("id", .str "p-1"), ("name", .str "Acme"),
           ("type", .str "trading_partner"), ("status", .str "active"),
           ("contact", .null), ("identifiers", .arr []),
           ("endpoints", .arr []), ("created", .null),
           ("modified", .str "T"), ("apm_id", .null)])]) := by
  refine ⟨by decide, by decide⟩

/-- C9 (amended): dispatch is by the source document's root structure,
not the declared `type` column: overwriting an artifact's declared type
commutes with the whole `transformOne` call (the stored canonical record
is unchanged by retyping); and each mapping normalizes singleton-wrapped
values to scalars (`getValue` takes the head of a present array field)
and absent fields to `null`. -/
theorem C9_theorem (s : MemStorage) (i : Nat) (ty n : String) (t : Nat) :
    ((transformOne (retype s i ty) i n t).2
        = retype ((transformOne s i n t).2) i ty)
    ∧ (∀ kvs (k : String) (x : Json) xs,
        (Json.obj kvs).member k = some (.arr (x :: xs)) →
        Json.getValue (.obj kvs) k = x)
    ∧ (∀ kvs (k : String),
        (Json.obj kvs).member k = none →
        Json.getValue (.obj kvs) k = .null) := by
  refine ⟨?_, fun kvs k x xs h => by simp [Json.getValue, h, Json.truthy],
          fun kvs k h => by simp [Json.getValue, h]⟩
  cases hga : s.getArtifact i with
  | none =>
    have hga' : (retype s i ty).getArtifact i = none := by
      rw [getArtifact_retype, hga]
      rfl
    simp [transformOne, hga, hga']
  | some a =>
    have hga'' : s.artifacts.find? (fun x => x.id == i) = some a := hga
    have haid : (a.id == i) = true :=
      List.find?_some (p := fun (x : Artifact) => x.id == i) hga''
    have heqi : a.id = i := by simpa using haid
    have hga' : (retype s i ty).getArtifact i
        = some { a with type := ty } := by
      rw [getArtifact_retype, hga]
      simp [heqi]
    cases hT : transform a.originalData n with
    | error e =>
      have hT2 : transform ({ a with type := ty } : Artifact).originalData n
          = .error e := hT
      simp [transformOne, hga, hga', hT, hT2]
    | ok d =>
      have hT2 : transform ({ a with type := ty } : Artifact).originalData n
          = .ok d := hT
      have hcomm := updateArtifact_retype s i ty
        { transformedData := some (some d), status := some "pending" } t rfl
      simp only [transformOne, hga, hga', hT, hT2]
      cases hr1 : ((retype s i ty).updateArtifact i
          { transformedData := some (some d), status := some "pending" } t).1 <;>
        cases hr2 : (s.updateArtifact i
          { transformedData := some (some d), status := some "pending" } t).1 <;>
        simp [hcomm]

/-- C9 witness: retype-commutation at the concrete store, and the two
normalization rules at concrete fields. -/
theorem C9_witness :
    (transformOne (retype mistypedStore 1 "endpoint") 1 "T" 2).2
        = retype ((transformOne mistypedStore 1 "T" 2).2) 1 "endpoint"
    ∧ Json.getValue (.obj [("a", .arr [.str "v"])]) "a" = .str "v"
    ∧ Json.getValue (.obj [("a", .arr [.str "v"])]) "b" = .null :=
  ⟨(C9_theorem mistypedStore 1 "endpoint" "T" 2).1,
   (C9_theorem mistypedStore 1 "endpoint" "T" 2).2.1
     [("a", .arr [.str "v"])] "a" (.str "v") [] rfl,
   (C9_theorem mistypedStore 1 "endpoint" "T" 2).2.2
     [("a", .arr [.str "v"])] "b" rfl⟩

/-! ## C10: updateArtifact frame conditions -/

/-- C10: `MemStorage.updateArtifact` with an unknown id returns
`undefined` and leaves the store completely unchanged; with a known id
it rewrites exactly that artifact: `lastModified` is always set to the
current time (even when the update names it), `id` and `createdAt` are
immutable, every field not named in the update keeps its value, and all
other artifacts and the migrations table are untouched (visible in the
returned store shape). -/
theorem C10_theorem (s : MemStorage) (i : Nat) (u : ArtifactUpdate)
    (t : Nat) :
    (s.getArtifact i = none → s.updateArtifact i u t = (none, s))
    ∧ (∀ a, s.getArtifact i = some a →
        (s.updateArtifact i u t).1 = some (applyUpdate a u t)
        ∧ (s.updateArtifact i u t).2
            = { s with artifacts :=
                (s.artifacts.map
                  (fun x => if x.id == i then applyUpdate a u t else x)) }
        ∧ (applyUpdate a u t).lastModified = t
        ∧ (applyUpdate a u t).id = a.id
        ∧ (applyUpdate a u t).createdAt = a.createdAt
        ∧ (u.name = none → (applyUpdate a u t).name = a.name)
        ∧ (u.originalId = none →
            (applyUpdate a u t).originalId = a.originalId)
        ∧ (u.type = none → (applyUpdate a u t).type = a.type)
        ∧ (u.status = none → (applyUpdate a u t).status = a.status)
        ∧ (u.originalData = none →
            (applyUpdate a u t).originalData = a.originalData)
        ∧ (u.transformedData = none →
            (applyUpdate a u t).transformedData = a.transformedData)
        ∧ (u.apmId = none → (applyUpdate a u t).apmId = a.apmId)
        ∧ (u.extractionId = none →
            (applyUpdate a u t).extractionId = a.extractionId)) := by
  constructor
  · intro h
    have h' : s.artifacts.find? (fun x => x.id == i) = none := h
    simp [MemStorage.updateArtifact, updateArtifactL, h']
  · intro a ha
    have ha' : s.artifacts.find? (fun x => x.id == i) = some a := ha
    refine ⟨by simp [MemStorage.updateArtifact, updateArtifactL, ha'],
            by simp [MemStorage.updateArtifact, updateArtifactL, ha'],
            rfl, rfl, rfl, ?_, ?_, ?_, ?_, ?_, ?_, ?_, ?_⟩ <;>
      (intro h; simp [applyUpdate, h])

/-- C10 witness: both modes at concrete inputs — an unknown id leaves
the store unchanged, and a status-only update keeps every other field
while stamping `lastModified`. -/
theorem C10_witness :
    badDocStore.updateArtifact 99 pendUpd 7 = (none, badDocStore)
    ∧ (badDocStore.updateArtifact 1 pendUpd 7).1
        = some (applyUpdate badArtifact pendUpd 7)
    ∧ (applyUpdate badArtifact pendUpd 7).lastModified = 7
    ∧ (applyUpdate badArtifact pendUpd 7).name = badArtifact.name := by
  have h1 := (C10_theorem badDocStore 99 pendUpd 7).1 rfl
  have h2 := (C10_theorem badDocStore 1 pendUpd 7).2 badArtifact rfl
  exact ⟨h1, h2.1, h2.2.2.1, h2.2.2.2.2.2.1 rfl⟩

end BC2APM
